import Mathlib

/-!
Verification of the TinyIDS device-bridge engine
(`backend/services/mqtt_service.py`): a shallow embedding of the
MQTT service's pure state-transition logic, followed by theorems about
message dispatch, device resolution, the registration handshake,
blocklist merging, pending-entry pruning and the scheduler guards.

Conventions of the embedding:
* JSON payloads are modelled by `JVal` (numbers restricted to integers:
  none of the modelled code paths depends on non-integer numerics).
* Python truthiness, `or`-chains, `str()`, `.strip()`, `.lower()`,
  `.split(",")` and `int()` are modelled explicitly (`truthy`, `orJ`,
  `pyStr`, `pyStrip`, `pyLower`, `splitComma`, `pyToInt`), character-wise
  over the string's characters; they cover the ASCII behaviour of the
  MAC/token/IP/topic strings the service handles.
* Wall-clock instants (`time.time()`, `datetime.utcnow()`) are passed in
  explicitly as integer parameters.
* The SQLAlchemy session is modelled by an explicit `DB` record of row
  lists in insertion order; `.first()` is the first matching row.
* `secrets.randbelow 9000` is modelled by `rng % 9000` for an arbitrary
  input `rng`.
-/

namespace TinyIDS

/-- Decoded JSON value (the result of `json.loads`). -/
inductive JVal where
  | jnull
  | jbool (b : Bool)
  | jnum (n : Int)
  | jstr (s : String)
  | jarr (elems : List JVal)
  | jobj (fields : List (String × JVal))

open JVal

/-- `str.lower()` (ASCII case folding, character-wise). -/
def pyLower (s : String) : String := String.mk (s.data.map Char.toLower)

/-- `str.strip()` (ASCII whitespace, character-wise). -/
def pyStrip (s : String) : String :=
  String.mk (((s.data.dropWhile Char.isWhitespace).reverse.dropWhile Char.isWhitespace).reverse)

/-- Emptiness of a string, via its character list. -/
def strEmpty (s : String) : Bool := s.data.isEmpty

/-- Accumulator for `splitComma`. -/
def splitCommaAux : List Char → List Char → List String
  | [], cur => [String.mk cur.reverse]
  | c :: rest, cur =>
    if c == ',' then String.mk cur.reverse :: splitCommaAux rest []
    else splitCommaAux rest (c :: cur)

/-- `s.split(",")`. -/
def splitComma (s : String) : List String := splitCommaAux s.data []

/-- Digit-string value for `pyToInt`. -/
def digitsVal : List Char → Option Nat → Option Nat
  | [], acc => acc
  | c :: rest, acc =>
    if c.isDigit then digitsVal rest (some ((acc.getD 0) * 10 + (c.toNat - 48)))
    else none

/-- `int(s)` on an already-stripped string: optional sign then decimal
digits, `None` otherwise. -/
def pyToInt (s : String) : Option Int :=
  match s.data with
  | '-' :: rest => (digitsVal rest none).map (fun n => -(n : Int))
  | '+' :: rest => (digitsVal rest none).map (fun n => (n : Int))
  | ds => (digitsVal ds none).map (fun n => (n : Int))

/-- Python truthiness of a decoded JSON value. -/
def truthy : JVal → Bool
  | jnull => false
  | jbool b => b
  | jnum n => n != 0
  | jstr s => !strEmpty s
  | jarr xs => !xs.isEmpty
  | jobj kvs => !kvs.isEmpty

/-- Python `a or b` on decoded JSON values. -/
def orJ (a b : JVal) : JVal := if truthy a then a else b


/-- Python `repr` of a decoded JSON value. -/
def pyRepr : JVal → String
  | jnull => "None"
  | jbool true => "True"
  | jbool false => "False"
  | jnum n => toString n
  | jstr s => "'" ++ s ++ "'"
  | jarr xs => "[" ++ String.intercalate ", " (xs.attach.map (fun x => pyRepr x.1)) ++ "]"
  | jobj kvs =>
      "\x7b" ++
        String.intercalate ", "
          (kvs.attach.map (fun kv => "'" ++ kv.1.1 ++ "': " ++ pyRepr kv.1.2)) ++
      "\x7d"
decreasing_by
  · have := x.2; simp_wf
    calc sizeOf x.1 < sizeOf xs := List.sizeOf_lt_of_mem this
      _ < 1 + sizeOf xs := by omega
  · have h := kv.2
    simp_wf
    have h1 : sizeOf kv.1 < sizeOf kvs := List.sizeOf_lt_of_mem h
    have h2 : sizeOf kv.1.2 < sizeOf kv.1 := by
      obtain ⟨a, b⟩ := kv.1; simp
    omega

/-- Python `str` of a decoded JSON value. -/
def pyStr : JVal → String
  | jstr s => s
  | v => pyRepr v

/-- `MQTTService._coerce_str`: `None` stays `None`, everything else is
`str(value).strip()`, with an empty result mapped to `None`. -/
def coerceStr : JVal → Option String
  | jnull => none
  | v => let t := pyStrip (pyStr v); if strEmpty t then none else some t

/-- `MQTTService._coerce_int`: `int(value)` with `TypeError`/`ValueError`
mapped to `None`. -/
def coerceInt : JVal → Option Int
  | jnull => none
  | jnum n => some n
  | jbool b => some (if b then 1 else 0)
  | jstr s => pyToInt (pyStrip s)
  | _ => none

/-- A decoded JSON object payload (association list, first key wins). -/
abbrev Payload := List (String × JVal)

/-- `payload.get(k)`: a missing key behaves as `None`. -/
def getJ (p : Payload) (k : String) : JVal := (List.lookup k p).getD jnull

/-- Truthiness of an optional DB string column (`None`/`""` are falsy). -/
def optTruthy : Option String → Bool
  | none => false
  | some s => !strEmpty s

/-! ## Persistent store rows (`backend/models.py`) -/

/-- `models.User` (only the column the engine reads). -/
structure User where
  id : Nat
deriving Repr, DecidableEq

/-- `models.Device` (the columns the engine reads or writes). -/
structure Device where
  id : Nat
  user_id : Nat
  name : String
  esp_id : String
  is_active : Bool
  ip_address : Option String
  mac_address : Option String
deriving Repr, DecidableEq

/-- `models.DeviceToken` (`device_id` is unique). -/
structure DeviceToken where
  device_id : Nat
  token : String
deriving Repr, DecidableEq

/-- `models.DeviceNetworkProfile` (the columns the engine touches);
`last_seen` is an integer instant. -/
structure NetworkProfile where
  device_id : Nat
  user_id : Nat
  last_seen : Option Int
deriving Repr, DecidableEq

/-- `models.Blacklist` (the columns the engine reads or writes). -/
structure BlacklistRow where
  user_id : Nat
  ip_address : String
  reason : String
deriving Repr, DecidableEq

/-- `models.Log` as created by the engine.  `severity` keeps the raw JSON
value the code passes to the column. -/
structure LogRow where
  user_id : Nat
  device_id : Nat
  payload : Payload
  severity : JVal
  source_ip : Option String
  destination_ip : Option String
  created_at : Option Int

/-- The slice of the persistent store the bridge engine sees, rows in
insertion order (`query.first()` returns the first matching row). -/
structure DB where
  users : List User
  devices : List Device
  tokens : List DeviceToken
  profiles : List NetworkProfile
  blacklist : List BlacklistRow
  logs : List LogRow

/-- `device.token` (1:1 relationship, `device_id` unique). -/
def DB.tokenFor (db : DB) (deviceId : Nat) : Option DeviceToken :=
  db.tokens.find? (fun t => t.device_id == deviceId)

/-- `device.network_profile` (1:1 relationship). -/
def DB.profileFor (db : DB) (deviceId : Nat) : Option NetworkProfile :=
  db.profiles.find? (fun pr => pr.device_id == deviceId)

/-! ## `MQTTService._resolve_device` -/

/-- The coerced MAC field of a payload:
`payload.get("mac_address") or payload.get("mac") or payload.get("macAddress")`
fed through `_coerce_str`. -/
def resolveMacValue (p : Payload) : Option String :=
  coerceStr (orJ (getJ p "mac_address") (orJ (getJ p "mac") (getJ p "macAddress")))

/-- The inner `_mac_matches` guard of `_resolve_device`. -/
def macMatches (macValue : Option String) (d : Device) : Bool :=
  match macValue with
  | none => true
  | some m => if !optTruthy d.mac_address then true
      else pyLower (d.mac_address.getD "") == pyLower m

/-- Step 1 query: account-scoped case-insensitive MAC lookup
(`func.lower(Device.mac_address) == mac_value.lower()`; a SQL `NULL`
column never matches). -/
def macQuery (db : DB) (ownerId : Nat) (m : String) : Option Device :=
  db.devices.find? (fun d =>
    d.user_id == ownerId &&
      match d.mac_address with
      | some dm => pyLower dm == pyLower m
      | none => false)

/-- Step 2 query: all token rows with an exact token match. -/
def tokenRows (db : DB) (t : String) : List DeviceToken :=
  db.tokens.filter (fun r => r.token == t)

/-- `owner.id if owner else 1` with `owner = User.query.first()`. -/
def ownerIdOf (db : DB) : Nat := ((db.users.head?).map User.id).getD 1

/-- The coerced token field of a payload. -/
def tokenValueOf (p : Payload) : Option String := coerceStr (getJ p "token")

/-- The coerced esp-id field chain
(`payload.get("esp_id") or payload.get("espId") or payload.get("espID")`). -/
def espChainValue (p : Payload) : Option String :=
  coerceStr (orJ (getJ p "esp_id") (orJ (getJ p "espId") (getJ p "espID")))

/-- The raw device-id value
(`payload.get("device_id") or payload.get("deviceId")`). -/
def deviceIdChainValue (p : Payload) : JVal :=
  orJ (getJ p "device_id") (getJ p "deviceId")

/-- The coerced IP field chain
(`payload.get("ip_address") or payload.get("ip") or payload.get("device_ip")`). -/
def ipChainValue (p : Payload) : Option String :=
  coerceStr (orJ (getJ p "ip_address") (orJ (getJ p "ip") (getJ p "device_ip")))

/-- The coerced device-name field chain
(`payload.get("device_name") or payload.get("deviceName") or payload.get("device")`). -/
def nameChainValue (p : Payload) : Option String :=
  coerceStr (orJ (getJ p "device_name") (orJ (getJ p "deviceName") (getJ p "device")))

/-- `MQTTService._resolve_device`, translated branch for branch. -/
def resolveDevice (db : DB) (p : Payload) : Option Device :=
  let ownerId := ownerIdOf db
  let macValue := resolveMacValue p
  -- 1. account-scoped case-insensitive MAC match
  let step1 : Option Device :=
    match macValue with
    | some m => macQuery db ownerId m
    | none => none
  match step1 with
  | some d => some d
  | none =>
    -- 2. exact token match, only if no MAC was supplied, unique row only
    let tokenValue := tokenValueOf p
    let step2 : Option (Option Device) :=
      match tokenValue, macValue with
      | some t, none =>
        match tokenRows db t with
        | [r] => some (db.devices.find? (fun d => d.id == r.device_id))
        | _ => none
      | _, _ => none
    match step2 with
    | some res => res
    | none =>
      -- 3. exact esp_id match guarded by `_mac_matches`
      let espId := espChainValue p
      let step3 : Option Device :=
        match espId with
        | some e =>
          match db.devices.find? (fun d => d.esp_id == e) with
          | some d => if macMatches macValue d then some d else none
          | none => none
        | none => none
      match step3 with
      | some d => some d
      | none =>
        -- 4. numeric device id scoped to account, guarded by `_mac_matches`
        let deviceIdValue := deviceIdChainValue p
        let deviceId := coerceInt deviceIdValue
        let step4 : Option Device :=
          match deviceId with
          | some i =>
            match db.devices.find? (fun d => (d.id : Int) == i && d.user_id == ownerId) with
            | some d => if macMatches macValue d then some d else none
            | none => none
          | none => none
        match step4 with
        | some d => some d
        | none =>
          -- 4b. a non-`None` device_id value reused as an esp_id candidate
          let step4b : Option Device :=
            match deviceIdValue, espId with
            | jnull, _ => none
            | _, some _ => none
            | v, none =>
              match coerceStr v with
              | some cand =>
                match db.devices.find? (fun d => d.esp_id == cand) with
                | some d => if macMatches macValue d then some d else none
                | none => none
              | none => none
          match step4b with
          | some d => some d
          | none =>
            -- 5. exact IP match scoped to account, only if no MAC was supplied
            let ipValue := ipChainValue p
            let step5 : Option Device :=
              match ipValue, macValue with
              | some ip, none =>
                db.devices.find? (fun d =>
                  d.user_id == ownerId &&
                    match d.ip_address with
                    | some dip => dip == ip
                    | none => false)
              | _, _ => none
            match step5 with
            | some d => some d
            | none =>
              -- 6. case-insensitive name match scoped to account, `_mac_matches` guard
              let nameValue := nameChainValue p
              match nameValue with
              | some nm =>
                match db.devices.find? (fun d =>
                    d.user_id == ownerId && pyLower d.name == pyLower nm) with
                | some d => if macMatches macValue d then some d else none
                | none => none
              | none => none

/-! ## Engine state (`MQTTService.__init__` fields the modelled paths use)

Python `dict`s are modelled as association lists in insertion order
(updates keep the original position, new keys are appended), Python
`set[str]` as duplicate-free lists in insertion order. -/

/-- `d.get k` on an association list. -/
def alookup {κ α : Type} [BEq κ] (l : List (κ × α)) (k : κ) : Option α :=
  List.lookup k l

/-- `d[k] = v` on an association list. -/
def ains {κ α : Type} [BEq κ] (l : List (κ × α)) (k : κ) (v : α) : List (κ × α) :=
  if (List.lookup k l).isSome then
    l.map (fun kv => if kv.1 == k then (k, v) else kv)
  else l ++ [(k, v)]

/-- `d.pop(k, None)` on an association list. -/
def aerase {κ α : Type} [BEq κ] (l : List (κ × α)) (k : κ) : List (κ × α) :=
  l.filter (fun kv => kv.1 != k)

/-- An entry of `self.pending_registrations`
(`{"token": ..., "ts": ...}`; the instant is an integer). -/
structure PendEntry where
  token : String
  ts : Int
deriving Repr, DecidableEq

/-- An outbound MQTT publish: either a plaintext string or a
JSON-serialised object (`json.dumps` is the external encoder). -/
inductive PubMsg where
  | text (s : String)
  | json (p : Payload)

/-- The mutable state of `MQTTService` relevant to the modelled paths,
plus append-only logs of outbound publishes and Socket.IO emissions. -/
structure EState where
  db : DB
  client : Bool
  discovery_topic : String := "esp/Entrance"
  pending_registrations : List (String × PendEntry) := []
  session_codes : List (String × String) := []
  latest_settings : List (Nat × Payload) := []
  pending_blocks : List (Nat × List String) := []
  pending_settings_requests : List (String × List Nat) := []
  last_whitelist_sync : List (Nat × Int) := []
  published : List (String × PubMsg) := []
  emitted : List String := []

/-- `_coerce_str` applied to a Python `str` argument. -/
def coerceStrS (s : String) : Option String :=
  let t := pyStrip s; if strEmpty t then none else some t

/-- `MQTTService._generate_session_code`: decimal digits of
`secrets.randbelow(9000) + 1000`, via format spec `04d`. -/
def decDigitsAux (n : Nat) (acc : List Char) : List Char :=
  let d := Char.ofNat (48 + n % 10)
  if n < 10 then d :: acc else decDigitsAux (n / 10) (d :: acc)
termination_by n
decreasing_by exact Nat.div_lt_self (by omega) (by omega)

/-- Decimal representation of a natural number (what `str`/`%d` print). -/
def decRepr (n : Nat) : String := String.mk (decDigitsAux n [])

/-- Python format spec `04d` for a non-negative value. -/
def format04 (n : Nat) : String :=
  let s := decRepr n
  if 4 ≤ s.length then s else String.mk (List.replicate (4 - s.length) '0') ++ s

/-- `MQTTService._generate_session_code` with the sampled value of
`secrets.randbelow(9000)` supplied as `rng % 9000`. -/
def generateSessionCode (rng : Nat) : String := format04 (1000 + rng % 9000)

/-- One step of `MQTTService._store_session_code`'s loop body. -/
def storeCodeKey (codes : List (String × String)) (key : Option String)
    (code : String) : List (String × String) :=
  match key with
  | none => codes
  | some k => if strEmpty k then codes else ains codes (pyLower k) code

/-- `MQTTService._store_session_code`: store under the lowercased
`mac_address` and `esp_id`, skipping falsy keys. -/
def storeSessionCode (st : EState) (device : Device) (code : String) : EState :=
  let c1 := storeCodeKey st.session_codes device.mac_address code
  { st with session_codes := storeCodeKey c1 (some device.esp_id) code }

/-- One step of `MQTTService._session_code_for_device`'s loop body. -/
def lookupCodeKey (codes : List (String × String)) (key : Option String) :
    Option String :=
  match key with
  | none => none
  | some k =>
    if strEmpty k then none
    else match alookup codes (pyLower k) with
      | some c => if strEmpty c then none else some c
      | none => none

/-- `MQTTService._session_code_for_device`. -/
def sessionCodeForDevice (st : EState) (device : Device) : Option String :=
  match lookupCodeKey st.session_codes device.mac_address with
  | some c => some c
  | none => lookupCodeKey st.session_codes (some device.esp_id)

/-- `MQTTService._control_topic_for_device`. -/
def controlTopicForDevice (st : EState) (device : Device) : String :=
  match sessionCodeForDevice st device with
  | some code => "esp/setting/Control-" ++ code
  | none => "esp/setting/Control"

/-! ## Registration protocol -/

/-- `MQTTService._prune_pending_registrations` (TTL default 300 s):
drop every entry with `now - ts > ttl`. -/
def prunePending (pending : List (String × PendEntry)) (now : Int)
    (ttl : Int := 300) : List (String × PendEntry) :=
  pending.filter (fun kv => !(decide (now - kv.2.ts > ttl)))

/-- `MQTTService.publish_discover`. -/
def publishDiscover (st : EState) (topic : Option String) : EState × Bool :=
  if !st.client then (st, false)
  else
    ({ st with published := st.published ++
        [(topic.getD st.discovery_topic, PubMsg.json [("cmd", jstr "DISCOVER")])] },
     true)

/-- `MQTTService.request_registration`. -/
def requestRegistration (st : EState) (macAddress token : String)
    (topic : Option String) (now : Int) : EState × Bool :=
  if !st.client then (st, false)
  else
    match coerceStrS macAddress, coerceStrS token with
    | some macValue, some tokenValue =>
      let pend := ains (prunePending st.pending_registrations now)
        (pyLower macValue) { token := pyLower tokenValue, ts := now }
      publishDiscover { st with pending_registrations := pend } topic
    | _, _ => (st, false)

/-- Next autoincrement device id. -/
def freshDeviceId (db : DB) : Nat :=
  db.devices.foldl (fun m d => max m d.id) 0 + 1

/-- `device.token.token = token` when a token row exists for the device,
otherwise a new `DeviceToken` row (the 1:1 `device.token` relationship
keyed by the unique `device_id`). -/
def upsertTokenRow (tokens : List DeviceToken) (idx : Nat) (tok : String) :
    List DeviceToken :=
  if (tokens.find? (fun t => t.device_id == idx)).isSome then
    tokens.map (fun (t : DeviceToken) =>
      if t.device_id == idx then { t with token := tok } else t)
  else tokens ++ [({ device_id := idx, token := tok } : DeviceToken)]

/-- Update-or-create of the 1:1 network profile with a new `last_seen`
(`_ensure_profile` followed by the `last_seen` assignment). -/
def upsertProfileSeen (profiles : List NetworkProfile) (idx uid : Nat) (seen : Int) :
    List NetworkProfile :=
  if (profiles.find? (fun pr => pr.device_id == idx)).isSome then
    profiles.map (fun (pr : NetworkProfile) =>
      if pr.device_id == idx then { pr with last_seen := some seen } else pr)
  else profiles ++ [({ device_id := idx, user_id := uid, last_seen := some seen } : NetworkProfile)]

/-- `MQTTService._register_device_from_registration` (the commit is the
returned store; `profile.last_seen = datetime.utcnow()` is `now`). -/
def registerDeviceFromRegistration (db : DB) (macAddress token : String)
    (now : Int) : DB × Option Device :=
  match db.users.head? with
  | none => (db, none)
  | some owner =>
    let macValue := pyStrip macAddress
    let found :=
      match db.devices.find? (fun d => d.esp_id == macValue) with
      | some d => some d
      | none =>
        db.devices.find? (fun d =>
          d.user_id == owner.id &&
            match d.mac_address with
            | some dm => pyLower dm == pyLower macValue
            | none => false)
    let devicePair : DB × Device :=
      match found with
      | none =>
        let device : Device :=
          { id := freshDeviceId db, user_id := owner.id, name := "ESP32",
            esp_id := macValue, is_active := true, ip_address := none,
            mac_address := some macValue }
        ({ db with devices := db.devices ++ [device] }, device)
      | some d =>
        let d' := { d with is_active := true, mac_address := some macValue,
                           esp_id := macValue }
        ({ db with devices := db.devices.map (fun x => if x.id == d.id then d' else x) },
         d')
    let db1 := devicePair.1
    let device := devicePair.2
    let db2 := { db1 with tokens := upsertTokenRow db1.tokens device.id token }
    let db3 := { db2 with profiles := upsertProfileSeen db2.profiles device.id owner.id now }
    (db3, some device)

/-- The coerced MAC field as read by `_handle_registration_reply`
(`payload.get("mac") or payload.get("mac_address") or payload.get("macAddress")`). -/
def regMacValue (p : Payload) : Option String :=
  coerceStr (orJ (getJ p "mac") (orJ (getJ p "mac_address") (getJ p "macAddress")))

/-- `MQTTService._handle_registration_reply`; `rng` is the value sampled
by `_generate_session_code`, `now` the current instant. -/
def handleRegistrationReply (st : EState) (p : Payload) (rng : Nat) (now : Int) :
    EState × Bool :=
  match regMacValue p, coerceStr (getJ p "token") with
  | some mac, some token =>
    let key := pyLower mac
    (match alookup st.pending_registrations key with
    | none => (st, false)
    | some entry =>
      if entry.token != pyLower token then (st, false)
      else
        let st1 := { st with pending_registrations := aerase st.pending_registrations key }
        let reg := registerDeviceFromRegistration st1.db mac token now
        let st2 := { st1 with db := reg.1 }
        match reg.2 with
        | some device =>
          if st2.client then
            let code := generateSessionCode rng
            let st3 := storeSessionCode st2 device code
            ({ st3 with
                published := st3.published ++
                  [(st3.discovery_topic, PubMsg.text ("Confirm-" ++ code ++ "-" ++ token))],
                emitted := st3.emitted ++ ["device:registered"] },
             true)
          else (st2, true)
        | none => (st2, true))
  | _, _ => (st, false)

/-! ## A small regular-expression engine

Used to embed the `re.match` call of `_get_blacklist_ips` exactly as it
stands in the source.  Bounded repetition is unfolded at construction. -/

/-- Regular expressions: empty, a literal character, `.` (any character
except a newline), a character class, concatenation, alternation. -/
inductive RE where
  | eps
  | ch (c : Char)
  | anyc
  | cls (f : Char → Bool)
  | seq (a b : RE)
  | alt (a b : RE)

/-- Backtracking matcher in continuation style: `maccept r s k` holds
when some prefix of `s` matches `r` and `k` accepts the rest. -/
def maccept : RE → List Char → (List Char → Bool) → Bool
  | .eps, s, k => k s
  | .ch _, [], _ => false
  | .ch c, a :: s, k => a == c && k s
  | .anyc, [], _ => false
  | .anyc, a :: s, k => a != '\n' && k s
  | .cls _, [], _ => false
  | .cls f, a :: s, k => f a && k s
  | .seq a b, s, k => maccept a s (fun s2 => maccept b s2 k)
  | .alt a b, s, k => maccept a s k || maccept b s k

/-- `r{n}`: exactly `n` copies. -/
def repeatRE : RE → Nat → RE
  | _, 0 => .eps
  | r, n + 1 => .seq r (repeatRE r n)

/-- `r{0,n}`: up to `n` copies. -/
def uptoRE : RE → Nat → RE
  | _, 0 => .eps
  | r, n + 1 => .alt .eps (.seq r (uptoRE r n))

/-- `r{lo,hi}`: bounded repetition. -/
def rangeRE (r : RE) (lo hi : Nat) : RE := .seq (repeatRE r lo) (uptoRE r (hi - lo))

/-- `re.match` of a `^...$`-anchored pattern against a newline-free
string: the whole string must match. -/
def reFullMatch (r : RE) (s : String) : Bool :=
  maccept r s.data (fun rest => rest.isEmpty)

/-- The pattern literally present in `_get_blacklist_ips`:
`r"^(?:\\d{1,3}\\.){3}\\d{1,3}$"`.  Inside a raw string, `\\d` is an
escaped backslash followed by a literal `d` and `\\.` is an escaped
backslash followed by the wildcard, so the group matches
backslash, one to three `d`s, backslash, any character. -/
def blacklistSourcePattern : RE :=
  .seq (repeatRE (.seq (.ch '\\') (.seq (rangeRE (.ch 'd') 1 3) (.seq (.ch '\\') .anyc))) 3)
    (.seq (.ch '\\') (rangeRE (.ch 'd') 1 3))

/-- The strict IPv4 dotted-quad pattern the surrounding code and comment
intend: `r"^(?:\d{1,3}\.){3}\d{1,3}$"`. -/
def intendedIPv4Pattern : RE :=
  .seq (repeatRE (.seq (rangeRE (.cls Char.isDigit) 1 3) (.ch '.')) 3)
    (rangeRE (.cls Char.isDigit) 1 3)

/-- `MQTTService._get_blacklist_ips`: account-scoped blacklist rows,
coerced, filtered through the source's regex. -/
def getBlacklistIps (db : DB) (userId : Nat) : List String :=
  (db.blacklist.filter (fun row => row.user_id == userId)).foldl
    (fun acc row =>
      match coerceStrS row.ip_address with
      | none => acc
      | some value =>
        if !reFullMatch blacklistSourcePattern value then acc
        else acc ++ [value])
    []

/-! ## Blocklist merge -/

/-- Fuel-driven worker for `pyDedup` (the fuel is an upper bound on the
list length, so the zero-fuel non-nil case is unreachable). -/
def pyDedupGo : Nat → List String → List String
  | _, [] => []
  | 0, _ :: _ => []
  | n + 1, x :: xs => x :: pyDedupGo n (xs.filter (fun y => y != x))

/-- `list(dict.fromkeys(xs))`: deduplicate keeping the first occurrence
of each element, preserving order. -/
def pyDedup (l : List String) : List String := pyDedupGo l.length l

/-- The cached `blocked_ips` reading shared by `_sync_blacklist_to_device`,
`_apply_blocklist_update` and `_sync_blocked_ip_to_device`:
`cached.get("blocked_ips") or cached.get("BLOCKED_IPS") or []`, a
comma-separated string split and stripped, a list element-wise
stringified and stripped, anything else treated as empty. -/
def parseBlockedList (cached : Payload) : List String :=
  let blocked := orJ (getJ cached "blocked_ips") (orJ (getJ cached "BLOCKED_IPS") (jarr []))
  match blocked with
  | jstr s => ((splitComma s).map pyStrip).filter (fun t => !strEmpty t)
  | jarr xs => ((xs.map pyStr).map pyStrip).filter (fun t => !strEmpty t)
  | _ => []

/-- `MQTTService._sync_blacklist_to_device`. -/
def syncBlacklistToDevice (st : EState) (device : Device)
    (blacklistIps : List String) : EState :=
  if !st.client || blacklistIps.isEmpty then st
  else
    let tokenOpt := (st.db.tokenFor device.id).map DeviceToken.token
    if !optTruthy tokenOpt then st
    else
      let tokenValue := tokenOpt.getD ""
      let cached := (alookup st.latest_settings device.id).getD []
      let blockedList := parseBlockedList cached
      let merged := pyDedup (blockedList ++ blacklistIps)
      if merged == blockedList then st
      else
        let payload := ains (ains cached "token" (jstr tokenValue))
          "blocked_ips" (jarr (merged.map jstr))
        { st with
            latest_settings := ains st.latest_settings device.id payload,
            published := st.published ++
              [(controlTopicForDevice st device, PubMsg.json payload)] }

/-- `MQTTService._apply_blocklist_update`; the iteration order of the
Python `set` argument is supplied as a list. -/
def applyBlocklistUpdate (st : EState) (device : Device)
    (pending : List String) (cached : Payload) : EState :=
  if !st.client then st
  else
    let tokenOpt := (st.db.tokenFor device.id).map DeviceToken.token
    if !optTruthy tokenOpt then st
    else
      let tokenValue := tokenOpt.getD ""
      let blockedList := parseBlockedList cached
      let merged := pyDedup (blockedList ++ pending)
      let payload := ains (ains cached "token" (jstr tokenValue))
        "blocked_ips" (jarr (merged.map jstr))
      { st with
          latest_settings := ains st.latest_settings device.id payload,
          published := st.published ++
            [(controlTopicForDevice st device, PubMsg.json payload)] }

/-! ## Pending settings-request queue -/

/-- `MQTTService._register_settings_request`. -/
def registerSettingsRequest (st : EState) (device : Device) : EState :=
  match st.db.tokenFor device.id with
  | none => st
  | some row =>
    match coerceStrS row.token with
    | none => st
    | some tokenValue =>
      let tokenKey := pyLower tokenValue
      let queue := (alookup st.pending_settings_requests tokenKey).getD []
      let queue := if queue.contains device.id then queue else queue ++ [device.id]
      let queue := if 50 < queue.length then queue.drop (queue.length - 50) else queue
      { st with pending_settings_requests := ains st.pending_settings_requests tokenKey queue }

/-- `MQTTService._pop_pending_settings_device`. -/
def popPendingSettingsDevice (st : EState) (tokenValue : String) :
    EState × Option Device :=
  match coerceStrS tokenValue with
  | none => (st, none)
  | some tk =>
    let tokenKey := pyLower tk
    match alookup st.pending_settings_requests tokenKey with
    | none => (st, none)
    | some [] => (st, none)
    | some (deviceId :: rest) =>
      let st1 :=
        if rest.isEmpty then
          { st with pending_settings_requests := aerase st.pending_settings_requests tokenKey }
        else
          { st with pending_settings_requests := ains st.pending_settings_requests tokenKey rest }
      (st1, st1.db.devices.find? (fun d => d.id == deviceId))

/-- `MQTTService._clear_pending_settings_request`. -/
def clearPendingSettingsRequest (st : EState) (tokenValue : String)
    (deviceId : Nat) : EState :=
  match coerceStrS tokenValue with
  | none => st
  | some tk =>
    let tokenKey := pyLower tk
    match alookup st.pending_settings_requests tokenKey with
    | none => st
    | some [] => st
    | some queue =>
      if queue.contains deviceId then
        let queue := queue.filter (fun i => i != deviceId)
        if queue.isEmpty then
          { st with pending_settings_requests := aerase st.pending_settings_requests tokenKey }
        else
          { st with pending_settings_requests := ains st.pending_settings_requests tokenKey queue }
      else st

/-! ## Scheduler start guards -/

/-- The scheduler-related fields of `MQTTService`; the `threads` counters
model how many loop threads `threading.Thread(...).start()` spawned. -/
structure Sched where
  discovery_interval : Int
  auto_discovery_enabled : Bool
  settings_poll_interval : Int
  device_prune_hours : Int
  device_prune_interval : Int
  discovery_thread_started : Bool := false
  settings_poll_thread_started : Bool := false
  device_cleanup_thread_started : Bool := false
  discovery_threads : Nat := 0
  settings_poll_threads : Nat := 0
  cleanup_threads : Nat := 0
deriving Repr, DecidableEq

/-- `MQTTService._start_discovery_loop`. -/
def startDiscoveryLoop (s : Sched) : Sched :=
  if s.discovery_thread_started || s.discovery_interval ≤ 0 || !s.auto_discovery_enabled
  then s
  else { s with discovery_thread_started := true,
                discovery_threads := s.discovery_threads + 1 }

/-- `MQTTService._start_settings_poll`. -/
def startSettingsPoll (s : Sched) : Sched :=
  if s.settings_poll_thread_started || s.settings_poll_interval ≤ 0 then s
  else { s with settings_poll_thread_started := true,
                settings_poll_threads := s.settings_poll_threads + 1 }

/-- `MQTTService._start_device_cleanup` (note: the guard reads
`device_prune_hours`, not `device_prune_interval`). -/
def startDeviceCleanup (s : Sched) : Sched :=
  if s.device_cleanup_thread_started || s.device_prune_hours ≤ 0 then s
  else { s with device_cleanup_thread_started := true,
                cleanup_threads := s.cleanup_threads + 1 }

/-- A start call to one of the three loops. -/
inductive StartCall where
  | disc
  | poll
  | cleanup
deriving Repr, DecidableEq

/-- Run a sequence of start calls. -/
def runStarts (s : Sched) : List StartCall → Sched
  | [] => s
  | c :: cs =>
    let s1 := match c with
      | .disc => startDiscoveryLoop s
      | .poll => startSettingsPoll s
      | .cleanup => startDeviceCleanup s
    runStarts s1 cs

/-! ## Payload enrichment and field derivation -/

/-- `dict.setdefault(k, v)` (presence of the key, not truthiness). -/
def setdefaultJ (p : Payload) (k : String) (v : JVal) : Payload :=
  if (List.lookup k p).isSome then p else p ++ [(k, v)]

/-- `MQTTService._enrich_payload`. -/
def enrichPayload (p : Payload) (topic : String) (defaultType : Option String) :
    Payload :=
  let e := setdefaultJ p "_mqtt_topic" (jstr topic)
  match defaultType with
  | some t => setdefaultJ e "type" (jstr t)
  | none => e

/-- `MQTTService._parse_timestamp`, restricted to the numeric-epoch
branch: an `int`/`bool` value yields an instant, anything else (including
ISO-8601 strings, whose parsing is outside the embedded fragment and on
which no claim depends) yields none for that key. -/
def parseTimestamp (p : Payload) : Option Int :=
  let keyVal : String → Option Int := fun k =>
    match getJ p k with
    | jnum n => some n
    | jbool b => some (if b then 1 else 0)
    | _ => none
  match keyVal "time" with
  | some t => some t
  | none =>
    match keyVal "timestamp" with
    | some t => some t
    | none =>
      match keyVal "ts" with
      | some t => some t
      | none => keyVal "reported_at"

/-- `MQTTService._derive_ip`. -/
def deriveIp (p : Payload) (pre : String) : Option String :=
  let keys := [pre ++ "_ip", pre ++ "Ip", pre ++ "_ip_address",
    pre ++ " ip", pre ++ "-ip", pre ++ " ip address", pre ++ "-ip-address"]
  keys.foldl (fun acc k =>
    match acc with
    | some v => some v
    | none => coerceStr (getJ p k)) none

/-- `MQTTService._touch_device`; returns the updated store and the
updated device row (Python mutates the row in place). -/
def touchDevice (db : DB) (device : Device) (p : Payload)
    (markActive : Option Bool) (now : Int) : DB × Device :=
  let ip := coerceStr (orJ (getJ p "ip_address") (orJ (getJ p "ip") (getJ p "device_ip")))
  let mac := coerceStr (orJ (getJ p "mac_address") (orJ (getJ p "mac") (getJ p "macAddress")))
  let nm := coerceStr (orJ (getJ p "device_name") (orJ (getJ p "deviceName") (getJ p "device")))
  let d1 := match ip with
    | some v => { device with ip_address := some v }
    | none => device
  let d2 := match mac with
    | some v => { d1 with mac_address := some v }
    | none => d1
  let d3 := match nm with
    | some v => if d2.name == "ESP32" || d2.name == "unknown" then { d2 with name := v } else d2
    | none => d2
  let d4 := match markActive with
    | some b => { d3 with is_active := b }
    | none => d3
  let db1 := { db with devices := db.devices.map (fun (x : Device) => if x.id == device.id then d4 else x) }
  let seen := (parseTimestamp p).getD now
  let db2 := { db1 with profiles := upsertProfileSeen db1.profiles device.id d4.user_id seen }
  (db2, d4)

/-- `MQTTService._auto_block_allowed`: `models.SystemSettings` has no
`auto_block_enabled` column, so `getattr(settings, "auto_block_enabled",
True)` always yields the default `True`, and the no-settings branch also
returns `True`. -/
def autoBlockAllowed (_db : DB) (_userId : Nat) : Bool := true

/-- `MQTTService._auto_block_ip`. -/
def autoBlockIp (db : DB) (userId : Nat) (ipAddress : String) (payload : Payload) : DB :=
  match coerceStrS ipAddress with
  | none => db
  | some ipValue =>
    if (db.blacklist.find? (fun r => r.user_id == userId && r.ip_address == ipValue)).isSome
    then db
    else
      let reason := orJ (getJ payload "alert_msg")
        (orJ (getJ payload "type") (jstr "Auto-blocked from alert"))
      { db with blacklist := db.blacklist ++
          [({ user_id := userId, ip_address := ipValue, reason := pyStr reason } : BlacklistRow)] }

/-- `MQTTService._queue_block_for_device`. -/
def queueBlockForDevice (st : EState) (device : Device) (ipAddress : String) : EState :=
  let tokenOpt := (st.db.tokenFor device.id).map DeviceToken.token
  match coerceStrS ipAddress with
  | none => st
  | some ipValue =>
    if !optTruthy tokenOpt then st
    else
      let pending0 := (alookup st.pending_blocks device.id).getD []
      let pending := if pending0.contains ipValue then pending0 else pending0 ++ [ipValue]
      let st1 := { st with pending_blocks := ains st.pending_blocks device.id pending }
      let requestBranch : EState :=
        if st1.client then
          let st2 := registerSettingsRequest st1 device
          { st2 with published := st2.published ++
              [(controlTopicForDevice st2 device,
                PubMsg.text ("showsetting-" ++ tokenOpt.getD ""))] }
        else st1
      match alookup st1.latest_settings device.id with
      | some cached =>
        if !cached.isEmpty then
          let st2 := applyBlocklistUpdate st1 device pending cached
          { st2 with pending_blocks := aerase st2.pending_blocks device.id }
        else requestBranch
      | none => requestBranch

/-! ## Whitelist-topic union -/

/-- `MQTTService._normalize_mqtt_whitelist`. -/
def normalizeMqttWhitelist (v : JVal) : List String :=
  match v with
  | jnull => []
  | jstr s => ((splitComma s).map pyStrip).filter (fun t => !strEmpty t)
  | jarr xs => ((xs.map pyStr).map pyStrip).filter (fun t => !strEmpty t)
  | other => [pyStrip (pyStr other)].filter (fun t => !strEmpty t)

/-- The cached whitelist field:
`cached.get("g_mqtt_whitelist") or cached.get("G_MQTT_WHITELIST")`. -/
def whitelistField (cached : Payload) : JVal :=
  orJ (getJ cached "g_mqtt_whitelist") (getJ cached "G_MQTT_WHITELIST")

/-- The per-device publish step of `_sync_mqtt_whitelist_for_user`. -/
def pushWhitelist (st : EState) (d : Device) (unionTopics : List String) : EState :=
  let tokenOpt := (st.db.tokenFor d.id).map DeviceToken.token
  if !optTruthy tokenOpt then st
  else
    match alookup st.latest_settings d.id with
    | none => st
    | some cached =>
      let current := normalizeMqttWhitelist (whitelistField cached)
      if current.all (fun t => unionTopics.contains t) &&
         unionTopics.all (fun t => current.contains t) then st
      else
        let payload := ains (ains cached "token" (jstr (tokenOpt.getD "")))
          "g_mqtt_whitelist" (jarr (unionTopics.map jstr))
        { st with
            latest_settings := ains st.latest_settings d.id payload,
            published := st.published ++
              [(controlTopicForDevice st d, PubMsg.json payload)] }

/-- `MQTTService._sync_mqtt_whitelist_for_user` (the 30-minute liveness
window and 3-second rate limit are in seconds on integer instants). -/
def syncMqttWhitelistForUser (st : EState) (userId : Nat) (now : Int) : EState :=
  if !st.client then st
  else
    let last := (alookup st.last_whitelist_sync userId).getD 0
    if now - last < 3 then st
    else
      let st := { st with last_whitelist_sync := ains st.last_whitelist_sync userId now }
      let cutoff := now - 30 * 60
      let devices := st.db.devices.filter (fun d =>
        d.user_id == userId && (st.db.tokenFor d.id).isSome)
      let online := devices.filter (fun d =>
        match st.db.profileFor d.id with
        | some pr =>
          match pr.last_seen with
          | some t => decide (cutoff ≤ t)
          | none => false
        | none => false)
      if online.isEmpty then st
      else
        let unionTopics := pyDedup (online.foldl (fun acc d =>
          match alookup st.latest_settings d.id with
          | some cached => acc ++ normalizeMqttWhitelist (whitelistField cached)
          | none => acc) [])
        if unionTopics.isEmpty then st
        else online.foldl (fun st d => pushWhitelist st d unionTopics) st

/-! ## Message handlers -/

/-- `MQTTService._handle_alert`. -/
def handleAlert (st : EState) (p : Payload) (topic : String) (now : Int) : EState :=
  match resolveDevice st.db p with
  | none => st
  | some device0 =>
    let td := touchDevice st.db device0 p (some true) now
    let st := { st with db := td.1 }
    let device := td.2
    let enriched0 := enrichPayload p topic (some "System Alert")
    let enriched :=
      if (List.lookup "description" enriched0).isNone &&
         (List.lookup "alert_msg" enriched0).isSome then
        enriched0 ++ [("description", getJ enriched0 "alert_msg")]
      else enriched0
    let severity := orJ (getJ p "severity")
      (orJ (getJ p "level") (orJ (getJ p "priority") (jstr "high")))
    let eventTime := parseTimestamp p
    let sourceIp := deriveIp p "source"
    let log : LogRow :=
      { user_id := device.user_id, device_id := device.id, payload := enriched,
        severity := severity, source_ip := sourceIp,
        destination_ip := deriveIp p "destination", created_at := eventTime }
    let st :=
      if sourceIp.isSome && autoBlockAllowed st.db device.user_id then
        let st1 := { st with db := autoBlockIp st.db device.user_id (sourceIp.getD "") enriched }
        queueBlockForDevice st1 device (sourceIp.getD "")
      else st
    { st with db := { st.db with logs := st.db.logs ++ [log] },
              emitted := st.emitted ++ ["log:new"] }

/-- `MQTTService._handle_settings`; `nowIso` is the formatted
`datetime.utcnow().isoformat() + "Z"` receipt string. -/
def handleSettings (st : EState) (p : Payload) (topic : String) (now : Int)
    (nowIso : String) : EState :=
  let resolved : EState × Option Device :=
    match resolveDevice st.db p with
    | some d => (st, some d)
    | none =>
      match coerceStr (getJ p "token") with
      | some tv => popPendingSettingsDevice st tv
      | none => (st, none)
  let st := resolved.1
  match resolved.2 with
  | none => st
  | some device0 =>
    let st :=
      match coerceStr (getJ p "token") with
      | some tv => clearPendingSettingsRequest st tv device0.id
      | none => st
    let td := touchDevice st.db device0 p (some true) now
    let st := { st with db := td.1 }
    let device := td.2
    let enriched := enrichPayload p topic (some "ESP Settings")
    let enriched := setdefaultJ enriched "_received_at" (jstr nowIso)
    let enriched := setdefaultJ enriched "received_at" (jstr nowIso)
    let enriched := setdefaultJ enriched "description"
      (jstr "Current configuration snapshot reported by ESP.")
    let st := { st with latest_settings := ains st.latest_settings device.id enriched }
    let st :=
      match alookup st.pending_blocks device.id with
      | some pending =>
        if !pending.isEmpty then
          let st1 := applyBlocklistUpdate st device pending enriched
          { st1 with pending_blocks := aerase st1.pending_blocks device.id }
        else st
      | none => st
    let st := syncMqttWhitelistForUser st device.user_id now
    let log : LogRow :=
      { user_id := device.user_id, device_id := device.id, payload := enriched,
        severity := orJ (getJ p "severity") (jstr "info"),
        source_ip := deriveIp p "source", destination_ip := deriveIp p "destination",
        created_at := none }
    { st with db := { st.db with logs := st.db.logs ++ [log] },
              emitted := st.emitted ++ ["log:new"] }

/-- `MQTTService._handle_alive`. -/
def handleAlive (st : EState) (p : Payload) (now : Int) : EState :=
  match resolveDevice st.db p with
  | none => st
  | some device0 =>
    let alertRaw0 := coerceStr (orJ (getJ p "alert_mode") (getJ p "alertMode"))
    let statusRaw := coerceStr (orJ (getJ p "status") (getJ p "state"))
    let alertRaw :=
      match alertRaw0, statusRaw with
      | none, some s =>
        if ["on", "off", "enabled", "disabled", "true", "false"].contains (pyLower s)
        then some s else none
      | a, _ => a
    let device1 :=
      match alertRaw with
      | some a => { device0 with is_active := ["on", "enabled", "true", "1"].contains (pyLower a) }
      | none => device0
    let td := touchDevice st.db device1 p none now
    { st with db := td.1, emitted := st.emitted ++ ["device:updated"] }

/-- `MQTTService._handle_generic_log`. -/
def handleGenericLog (st : EState) (p : Payload) (topic : String) (now : Int) : EState :=
  match resolveDevice st.db p with
  | none => st
  | some device0 =>
    let td := touchDevice st.db device0 p (some true) now
    let st := { st with db := td.1 }
    let device := td.2
    let enriched := enrichPayload p topic none
    let log : LogRow :=
      { user_id := device.user_id, device_id := device.id, payload := enriched,
        severity := (List.lookup "severity" p).getD (jstr "info"),
        source_ip := deriveIp p "source", destination_ip := deriveIp p "destination",
        created_at := none }
    { st with db := { st.db with logs := st.db.logs ++ [log] },
              emitted := st.emitted ++ ["log:new"] }

/-! ## Dispatch router (`MQTTService._on_message`) -/

/-- Outcome of the decode/wrap stage of `_on_message`. -/
inductive DispatchOutcome where
  | droppedSilently
  | droppedLogged
  | routed (p : Payload)

/-- The normalised topic key `(msg.topic or "").strip().lower()`. -/
def topicKeyOf (topic : String) : String := pyLower (pyStrip topic)

/-- The decode/wrap stage of `_on_message`: `decoded` is the result of
`json.loads` (`none` on `JSONDecodeError`).  A decode failure on the
noise topic `esp/alive/check` is dropped silently, on any other topic it
is logged and dropped; a decoded non-object is wrapped under a single
`"message"` key. -/
def decodeStage (topicKey : String) (decoded : Option JVal) : DispatchOutcome :=
  match decoded with
  | none =>
    if topicKey == "esp/alive/check" then .droppedSilently else .droppedLogged
  | some v =>
    match v with
    | jobj kvs => .routed kvs
    | v => .routed [("message", v)]

/-- `MQTTService._on_message` after the decode stage: topic-based fanout
to the handlers (`fallbackTopics` models `self.fallback_topics`). -/
def onMessage (st : EState) (fallbackTopics : List String) (topic : String)
    (decoded : Option JVal) (rng : Nat) (now : Int) (nowIso : String) : EState :=
  let topicKey := topicKeyOf topic
  match decodeStage topicKey decoded with
  | .droppedSilently => st
  | .droppedLogged => st
  | .routed payload =>
    let reg : EState × Bool :=
      if topicKey == "esp/entrance" || topicKey == "esp/esp/entrance" then
        handleRegistrationReply st payload rng now
      else (st, false)
    if reg.2 then reg.1
    else
      let st1 := reg.1
      if topicKey == "esp/alert" then handleAlert st1 payload topic now
      else if topicKey == "esp/setting/now" || topicKey == "esp/setting/control" then
        handleSettings st1 payload topic now nowIso
      else if topicKey == "esp/alive" then handleAlive st1 payload now
      else if fallbackTopics.contains topicKey then handleGenericLog st1 payload topic now
      else st1

/-- The fields of a decoded JSON object (`[]` for non-objects). -/
def objFields : JVal → Payload
  | jobj kvs => kvs
  | _ => []

/-- Invariant of the scheduler state under start calls, relative to the
initial configuration `c`. -/
def SchedInv (c s : Sched) : Prop :=
  s.discovery_interval = c.discovery_interval ∧
  s.auto_discovery_enabled = c.auto_discovery_enabled ∧
  s.settings_poll_interval = c.settings_poll_interval ∧
  s.device_prune_hours = c.device_prune_hours ∧
  s.discovery_threads ≤ 1 ∧
  s.settings_poll_threads ≤ 1 ∧
  s.cleanup_threads ≤ 1 ∧
  (s.discovery_thread_started = false → s.discovery_threads = 0) ∧
  (s.settings_poll_thread_started = false → s.settings_poll_threads = 0) ∧
  (s.device_cleanup_thread_started = false → s.cleanup_threads = 0) ∧
  (c.discovery_interval ≤ 0 → s.discovery_threads = 0) ∧
  (c.settings_poll_interval ≤ 0 → s.settings_poll_threads = 0) ∧
  (c.device_prune_hours ≤ 0 → s.cleanup_threads = 0)

/-!
# Theorems

Shared association-list lemmas first, then one theorem per specification
claim (with a closed witness instance where the theorem has hypotheses).
-/

section AssocLemmas

variable {κ α : Type} [BEq κ] [LawfulBEq κ]

theorem lookup_append (l l2 : List (κ × α)) (k : κ) :
    List.lookup k (l ++ l2) =
      match List.lookup k l with
      | some v => some v
      | none => List.lookup k l2 := by
  induction l with
  | nil => simp
  | cons kv t ih =>
    obtain ⟨a, b⟩ := kv
    by_cases hka : k = a
    · subst hka; simp [List.lookup_cons]
    · have hb : (k == a) = false := by simp [hka]
      simp [List.lookup_cons, hb, ih]

theorem lookup_map_update (l : List (κ × α)) (k k' : κ) (v : α) (h : ¬ k' = k) :
    List.lookup k' (l.map (fun kv => if kv.1 == k then (k, v) else kv)) =
      List.lookup k' l := by
  induction l with
  | nil => simp
  | cons kv t ih =>
    obtain ⟨a, b⟩ := kv
    by_cases hak : a = k
    · subst hak
      have h1 : (k' == a) = false := by simp [h]
      simp [List.lookup_cons, h1, ih]
    · have h1 : (a == k) = false := by simp [hak]
      simp only [List.map_cons, h1]
      simp [List.lookup_cons, ih]

theorem alookup_ains_self (l : List (κ × α)) (k : κ) (v : α) :
    alookup (ains l k v) k = some v := by
  unfold ains alookup
  split
  next h =>
    induction l with
    | nil => simp at h
    | cons kv t ih =>
      obtain ⟨a, b⟩ := kv
      by_cases hak : a = k
      · subst hak
        simp [List.lookup_cons]
      · have h1 : (a == k) = false := by simp [hak]
        have h2 : (k == a) = false := by simp [Ne.symm hak]
        simp only [List.map_cons, h1, Bool.false_eq_true, if_false]
        simp only [List.lookup_cons, h2] at h ⊢
        exact ih h
  next h =>
    rw [lookup_append]
    have hnone : List.lookup k l = none := by
      cases hl : List.lookup k l with
      | none => rfl
      | some v' => rw [hl] at h; simp at h
    rw [hnone]
    simp [List.lookup_cons]

theorem alookup_ains_other (l : List (κ × α)) (k k' : κ) (v : α) (h : ¬ k' = k) :
    alookup (ains l k v) k' = alookup l k' := by
  unfold ains alookup
  split
  next _ => exact lookup_map_update l k k' v h
  next _ =>
    rw [lookup_append]
    cases hl : List.lookup k' l with
    | some v' => rfl
    | none =>
      have hb : (k' == k) = false := by simp [h]
      simp [List.lookup_cons, hb]

theorem alookup_aerase_self (l : List (κ × α)) (k : κ) :
    alookup (aerase l k) k = none := by
  unfold aerase alookup
  induction l with
  | nil => simp
  | cons kv t ih =>
    obtain ⟨a, b⟩ := kv
    by_cases hak : a = k
    · subst hak
      simp only [List.filter_cons, bne_self_eq_false]
      exact ih
    · have h1 : (a != k) = true := by simp [bne, hak]
      have h2 : (k == a) = false := by simp [Ne.symm hak]
      simp only [List.filter_cons, h1, if_pos]
      simp [List.lookup_cons, h2, ih]

theorem alookup_mem (l : List (κ × α)) (k : κ) (v : α)
    (h : alookup l k = some v) : (k, v) ∈ l := by
  unfold alookup at h
  induction l with
  | nil => simp at h
  | cons kv t ih =>
    obtain ⟨a, b⟩ := kv
    by_cases hka : k = a
    · subst hka
      simp [List.lookup_cons] at h
      subst h
      exact List.mem_cons_self _ _
    · have hb : (k == a) = false := by simp [hka]
      simp only [List.lookup_cons, hb] at h
      exact List.mem_cons_of_mem _ (ih h)

end AssocLemmas

section SessionCode

theorem ddA_len1 (n : Nat) (acc : List Char) (h2 : n < 10) :
    (decDigitsAux n acc).length = 1 + acc.length := by
  unfold decDigitsAux
  simp [h2]
  omega

theorem ddA_len2 (n : Nat) (acc : List Char) (h1 : 10 ≤ n) (h2 : n < 100) :
    (decDigitsAux n acc).length = 2 + acc.length := by
  have d1 : ¬ n < 10 := by omega
  rw [decDigitsAux]
  simp only [if_neg d1]
  rw [ddA_len1 (n / 10) _ (by omega)]
  simp
  omega

theorem ddA_len3 (n : Nat) (acc : List Char) (h1 : 100 ≤ n) (h2 : n < 1000) :
    (decDigitsAux n acc).length = 3 + acc.length := by
  have d1 : ¬ n < 10 := by omega
  rw [decDigitsAux]
  simp only [if_neg d1]
  rw [ddA_len2 (n / 10) _ (by omega) (by omega)]
  simp
  omega

theorem ddA_len4 (n : Nat) (acc : List Char) (h1 : 1000 ≤ n) (h2 : n < 10000) :
    (decDigitsAux n acc).length = 4 + acc.length := by
  have d1 : ¬ n < 10 := by omega
  rw [decDigitsAux]
  simp only [if_neg d1]
  rw [ddA_len3 (n / 10) _ (by omega) (by omega)]
  simp
  omega

theorem decRepr_len4 (n : Nat) (h1 : 1000 ≤ n) (h2 : n < 10000) :
    (decRepr n).length = 4 := by
  unfold decRepr
  show (String.mk (decDigitsAux n [])).length = 4
  simp only [String.length]
  rw [ddA_len4 n [] h1 h2]
  rfl

theorem generateSessionCode_eq (rng : Nat) :
    generateSessionCode rng = decRepr (1000 + rng % 9000) := by
  unfold generateSessionCode format04
  have hm : rng % 9000 < 9000 := Nat.mod_lt _ (by omega)
  have hlen : (decRepr (1000 + rng % 9000)).length = 4 :=
    decRepr_len4 _ (by omega) (by omega)
  simp [hlen]

/-- C9: every session code the engine generates is the decimal
representation of a number in `[1000, 9999]` and has exactly four
characters, and `_store_session_code` files it under the lowercased
`mac_address` and the lowercased `esp_id` for each of those keys that is
present (non-falsy). -/
theorem session_code_range_and_storage (rng : Nat) (st : EState) (device : Device) :
    (∃ k : Nat, 1000 ≤ k ∧ k ≤ 9999 ∧ generateSessionCode rng = decRepr k ∧
      (generateSessionCode rng).length = 4) ∧
    (∀ m : String, device.mac_address = some m → strEmpty m = false →
      alookup (storeSessionCode st device (generateSessionCode rng)).session_codes
        (pyLower m) = some (generateSessionCode rng)) ∧
    (strEmpty device.esp_id = false →
      alookup (storeSessionCode st device (generateSessionCode rng)).session_codes
        (pyLower device.esp_id) = some (generateSessionCode rng)) := by
  have hm : rng % 9000 < 9000 := Nat.mod_lt _ (by omega)
  refine ⟨⟨1000 + rng % 9000, by omega, by omega, generateSessionCode_eq rng, ?_⟩, ?_, ?_⟩
  · rw [generateSessionCode_eq]
    exact decRepr_len4 _ (by omega) (by omega)
  · intro m hmac hne
    unfold storeSessionCode storeCodeKey
    rw [hmac]
    simp only [hne, Bool.false_eq_true, if_neg, if_false]
    by_cases hesp : strEmpty device.esp_id
    · simp [hesp, alookup_ains_self]
    · simp only [hesp, Bool.false_eq_true, if_neg, if_false]
      by_cases heq : pyLower m = pyLower device.esp_id
      · rw [heq, alookup_ains_self]
      · rw [alookup_ains_other _ _ _ _ heq, alookup_ains_self]
  · intro hne
    unfold storeSessionCode storeCodeKey
    simp only [hne, Bool.false_eq_true, if_neg, if_false]
    cases device.mac_address with
    | none => exact alookup_ains_self _ _ _
    | some m => by_cases hm2 : strEmpty m <;> simp [hm2, alookup_ains_self]

/-- Witness for the session-code theorem at a concrete device and rng. -/
theorem session_code_range_and_storage_witness :
    (∃ k : Nat, 1000 ≤ k ∧ k ≤ 9999 ∧ generateSessionCode 41 = decRepr k ∧
      (generateSessionCode 41).length = 4) ∧
    alookup (storeSessionCode { db := ⟨[], [], [], [], [], []⟩, client := true }
        ⟨1, 1, "ESP32", "E5", true, none, some "AA:BB"⟩
        (generateSessionCode 41)).session_codes (pyLower "AA:BB") = some (generateSessionCode 41) ∧
    alookup (storeSessionCode { db := ⟨[], [], [], [], [], []⟩, client := true }
        ⟨1, 1, "ESP32", "E5", true, none, some "AA:BB"⟩
        (generateSessionCode 41)).session_codes (pyLower "E5") = some (generateSessionCode 41) := by
  obtain ⟨hex, hmac, hesp⟩ := session_code_range_and_storage 41
    { db := ⟨[], [], [], [], [], []⟩, client := true }
    ⟨1, 1, "ESP32", "E5", true, none, some "AA:BB"⟩
  exact ⟨hex, hmac "AA:BB" rfl (by decide), hesp (by decide)⟩

end SessionCode

section Schedulers

theorem schedInv_step (c s : Sched) (call : StartCall) (h : SchedInv c s) :
    SchedInv c (match call with
      | .disc => startDiscoveryLoop s
      | .poll => startSettingsPoll s
      | .cleanup => startDeviceCleanup s) := by
  obtain ⟨h1, h2, h3, h4, h5, h6, h7, h8, h9, h10, h11, h12, h13⟩ := h
  cases call
  case disc =>
    cases hg : (s.discovery_thread_started || decide (s.discovery_interval ≤ 0) ||
        !s.auto_discovery_enabled) with
    | true =>
      simp only [startDiscoveryLoop, hg, if_true]
      exact ⟨h1, h2, h3, h4, h5, h6, h7, h8, h9, h10, h11, h12, h13⟩
    | false =>
      simp only [Bool.or_eq_false_iff, decide_eq_false_iff_not, Bool.not_eq_false] at hg
      simp only [startDiscoveryLoop, hg.1.1, hg.1.2, hg.2, decide_eq_false hg.1.2,
        Bool.false_or, Bool.not_true, Bool.or_false, if_false, Bool.false_eq_true]
      refine ⟨h1, h2, h3, h4, ?_, h6, h7, ?_, h9, h10, ?_, h12, h13⟩
      · have := h8 hg.1.1
        simp [this]
      · intro hcon; simp at hcon
      · intro hcon
        rw [h1] at hg
        exact absurd hcon hg.1.2
  case poll =>
    cases hg : (s.settings_poll_thread_started || decide (s.settings_poll_interval ≤ 0)) with
    | true =>
      simp only [startSettingsPoll, hg, if_true]
      exact ⟨h1, h2, h3, h4, h5, h6, h7, h8, h9, h10, h11, h12, h13⟩
    | false =>
      simp only [Bool.or_eq_false_iff, decide_eq_false_iff_not] at hg
      simp only [startSettingsPoll, hg.1, decide_eq_false hg.2, Bool.or_false,
        if_false, Bool.false_eq_true]
      refine ⟨h1, h2, h3, h4, h5, ?_, h7, h8, ?_, h10, h11, ?_, h13⟩
      · have := h9 hg.1
        simp [this]
      · intro hcon; simp at hcon
      · intro hcon
        rw [h3] at hg
        exact absurd hcon hg.2
  case cleanup =>
    cases hg : (s.device_cleanup_thread_started || decide (s.device_prune_hours ≤ 0)) with
    | true =>
      simp only [startDeviceCleanup, hg, if_true]
      exact ⟨h1, h2, h3, h4, h5, h6, h7, h8, h9, h10, h11, h12, h13⟩
    | false =>
      simp only [Bool.or_eq_false_iff, decide_eq_false_iff_not] at hg
      simp only [startDeviceCleanup, hg.1, decide_eq_false hg.2, Bool.or_false,
        if_false, Bool.false_eq_true]
      refine ⟨h1, h2, h3, h4, h5, h6, ?_, h8, h9, ?_, h11, h12, ?_⟩
      · have := h10 hg.1
        simp [this]
      · intro hcon; simp at hcon
      · intro hcon
        rw [h4] at hg
        exact absurd hcon hg.2

theorem schedInv_runStarts (c s : Sched) (calls : List StartCall)
    (h : SchedInv c s) : SchedInv c (runStarts s calls) := by
  induction calls generalizing s with
  | nil => exact h
  | cons call rest ih =>
    unfold runStarts
    exact ih _ (schedInv_step c s call h)

/-- C8 (amended): under any sequence of start calls from a fresh state,
each of the three loops is started at most once; the discovery loop is
never started when its interval is non-positive, the settings-poll loop
is never started when its interval is non-positive, and the
device-cleanup loop is never started when the prune-hours retention is
non-positive.  (The cleanup guard reads `device_prune_hours`, not
`device_prune_interval`.) -/
theorem scheduler_start_guards (s0 : Sched) (calls : List StartCall)
    (nd : s0.discovery_threads = 0)
    (np : s0.settings_poll_threads = 0)
    (nc : s0.cleanup_threads = 0) :
    (runStarts s0 calls).discovery_threads ≤ 1 ∧
    (runStarts s0 calls).settings_poll_threads ≤ 1 ∧
    (runStarts s0 calls).cleanup_threads ≤ 1 ∧
    (s0.discovery_interval ≤ 0 → (runStarts s0 calls).discovery_threads = 0) ∧
    (s0.settings_poll_interval ≤ 0 → (runStarts s0 calls).settings_poll_threads = 0) ∧
    (s0.device_prune_hours ≤ 0 → (runStarts s0 calls).cleanup_threads = 0) := by
  have base : SchedInv s0 s0 := by
    refine ⟨rfl, rfl, rfl, rfl, ?_, ?_, ?_, ?_, ?_, ?_, ?_, ?_, ?_⟩ <;>
      simp [nd, np, nc]
  have h := schedInv_runStarts s0 s0 calls base
  obtain ⟨_, _, _, _, h5, h6, h7, _, _, _, h11, h12, h13⟩ := h
  exact ⟨h5, h6, h7, h11, h12, h13⟩

/-- The claim as frozen is false for the device-pruning loop: with
`device_prune_interval = 0` (non-positive) but `device_prune_hours = 24`
the cleanup loop is still started. -/
theorem scheduler_prune_interval_counterexample :
    (0 : Int) ≤ 0 ∧
    (runStarts
      { discovery_interval := 15, auto_discovery_enabled := false,
        settings_poll_interval := 0, device_prune_hours := 24,
        device_prune_interval := 0 } [StartCall.cleanup]).device_prune_interval = 0 ∧
    (runStarts
      { discovery_interval := 15, auto_discovery_enabled := false,
        settings_poll_interval := 0, device_prune_hours := 24,
        device_prune_interval := 0 } [StartCall.cleanup]).cleanup_threads = 1 := by
  refine ⟨le_refl 0, ?_, ?_⟩ <;> rfl

/-- Witness for the scheduler theorem at a concrete configuration and
call sequence (double start of every loop). -/
theorem scheduler_start_guards_witness :
    (runStarts
      { discovery_interval := 15, auto_discovery_enabled := true,
        settings_poll_interval := 0, device_prune_hours := 0,
        device_prune_interval := 3600 }
      [StartCall.disc, StartCall.poll, StartCall.cleanup,
       StartCall.disc, StartCall.poll, StartCall.cleanup]).discovery_threads ≤ 1 ∧
    (runStarts
      { discovery_interval := 15, auto_discovery_enabled := true,
        settings_poll_interval := 0, device_prune_hours := 0,
        device_prune_interval := 3600 }
      [StartCall.disc, StartCall.poll, StartCall.cleanup,
       StartCall.disc, StartCall.poll, StartCall.cleanup]).settings_poll_threads = 0 ∧
    (runStarts
      { discovery_interval := 15, auto_discovery_enabled := true,
        settings_poll_interval := 0, device_prune_hours := 0,
        device_prune_interval := 3600 }
      [StartCall.disc, StartCall.poll, StartCall.cleanup,
       StartCall.disc, StartCall.poll, StartCall.cleanup]).cleanup_threads = 0 := by
  have h := scheduler_start_guards
    { discovery_interval := 15, auto_discovery_enabled := true,
      settings_poll_interval := 0, device_prune_hours := 0,
      device_prune_interval := 3600 }
    [StartCall.disc, StartCall.poll, StartCall.cleanup,
     StartCall.disc, StartCall.poll, StartCall.cleanup]
    rfl rfl rfl
  exact ⟨h.1, h.2.2.2.2.1 (by decide), h.2.2.2.2.2 (by decide)⟩

end Schedulers

section Dispatch

/-- C7: the decode/wrap stage of `_on_message` is a total function (the
embedding of a handler that catches `JSONDecodeError` and so never
raises): a decode failure on the noise topic `esp/alive/check` is
dropped silently, on every other topic it is logged and dropped, and in
both cases no handler runs — the engine state is unchanged; a decoded
value that is not a key/value mapping is wrapped under a single
`"message"` key before being routed. -/
theorem dispatch_decode_contract (topic : String) (v : JVal) (st : EState)
    (fallbackTopics : List String) (rng : Nat) (now : Int) (nowIso : String) :
    (topicKeyOf topic = "esp/alive/check" →
      decodeStage (topicKeyOf topic) none = DispatchOutcome.droppedSilently) ∧
    (topicKeyOf topic ≠ "esp/alive/check" →
      decodeStage (topicKeyOf topic) none = DispatchOutcome.droppedLogged) ∧
    onMessage st fallbackTopics topic none rng now nowIso = st ∧
    ((∃ kvs, v = jobj kvs) →
      decodeStage (topicKeyOf topic) (some v) = DispatchOutcome.routed (objFields v)) ∧
    ((∀ kvs, v ≠ jobj kvs) →
      decodeStage (topicKeyOf topic) (some v) = DispatchOutcome.routed [("message", v)]) := by
  refine ⟨?_, ?_, ?_, ?_, ?_⟩
  · intro h
    have hb : (topicKeyOf topic == "esp/alive/check") = true := by simp [h]
    simp [decodeStage, hb]
  · intro h
    have hb : (topicKeyOf topic == "esp/alive/check") = false := by simp [h]
    simp [decodeStage, hb]
  · unfold onMessage decodeStage
    by_cases h : (topicKeyOf topic == "esp/alive/check") = true
    · simp [h]
    · simp [h]
  · rintro ⟨kvs, rfl⟩
    simp [decodeStage, objFields]
  · intro h
    cases v with
    | jobj kvs => exact absurd rfl (h kvs)
    | jnull => simp [decodeStage]
    | jbool b => simp [decodeStage]
    | jnum n => simp [decodeStage]
    | jstr s => simp [decodeStage]
    | jarr xs => simp [decodeStage]

/-- Witness for the dispatch contract at concrete topics and payloads. -/
theorem dispatch_decode_contract_witness :
    decodeStage (topicKeyOf " esp/Alive/Check ") none = DispatchOutcome.droppedSilently ∧
    decodeStage (topicKeyOf "esp/alert") none = DispatchOutcome.droppedLogged ∧
    onMessage { db := ⟨[], [], [], [], [], []⟩, client := true } [] "esp/alert" none 0 0 "" =
      { db := ⟨[], [], [], [], [], []⟩, client := true } ∧
    decodeStage (topicKeyOf "esp/alert") (some (jstr "boot")) =
      DispatchOutcome.routed [("message", jstr "boot")] := by
  obtain ⟨hnoise, _, _, _, _⟩ := dispatch_decode_contract " esp/Alive/Check " (jstr "boot")
    { db := ⟨[], [], [], [], [], []⟩, client := true } [] 0 0 ""
  obtain ⟨_, hlog, hstate, _, hwrap⟩ := dispatch_decode_contract "esp/alert" (jstr "boot")
    { db := ⟨[], [], [], [], [], []⟩, client := true } [] 0 0 ""
  exact ⟨hnoise (by decide), hlog (by decide), hstate, hwrap (fun kvs h => by cases h)⟩

end Dispatch

section BlacklistFilter

/-- C3 (code bug): the defensive IPv4 filter of `_get_blacklist_ips` is
the raw string `r"^(?:\\d{1,3}\\.){3}\\d{1,3}$"`, in which `\\d` is an
escaped backslash followed by a literal `d`.  The intended dotted-quad
pattern accepts `10.0.0.5`, the pattern actually in the source rejects
it (and instead accepts backslash-laden strings), so the account
blocklist `["10.0.0.5"]` is filtered down to nothing and never reaches a
device. -/
theorem blacklist_filter_rejects_ipv4 :
    reFullMatch intendedIPv4Pattern "10.0.0.5" = true ∧
    reFullMatch blacklistSourcePattern "10.0.0.5" = false ∧
    reFullMatch blacklistSourcePattern "\\d\\.\\d\\.\\d\\.\\d" = true ∧
    getBlacklistIps ⟨[⟨1⟩], [], [], [], [⟨1, "10.0.0.5", "manual block"⟩], []⟩ 1 = [] := by
  refine ⟨rfl, rfl, rfl, rfl⟩

end BlacklistFilter

section PendingTTL

/-- C5: (i) after a prune pass every surviving pending-registration
entry is at most TTL = 300 seconds old; (ii) a discovery reply whose key
is absent from the ledger returns `false` with no state change; (iii)
`request_registration` prunes before inserting: afterwards the new entry
is present with the current timestamp, every entry of the resulting
ledger is fresh, and the broadcast went out. -/
theorem pending_registration_ttl :
    (∀ (pending : List (String × PendEntry)) (now : Int) (k : String) (e : PendEntry),
      alookup (prunePending pending now) k = some e → now - e.ts ≤ 300) ∧
    (∀ (st : EState) (p : Payload) (rng : Nat) (now : Int) (mac token : String),
      regMacValue p = some mac → coerceStr (getJ p "token") = some token →
      alookup st.pending_registrations (pyLower mac) = none →
      handleRegistrationReply st p rng now = (st, false)) ∧
    (∀ (st : EState) (mac tok : String) (m tv : String) (topic : Option String) (now : Int),
      st.client = true → coerceStrS mac = some m → coerceStrS tok = some tv →
      (requestRegistration st mac tok topic now).2 = true ∧
      alookup (requestRegistration st mac tok topic now).1.pending_registrations
        (pyLower m) = some { token := pyLower tv, ts := now } ∧
      (∀ (k : String) (e : PendEntry),
        alookup (requestRegistration st mac tok topic now).1.pending_registrations k =
          some e → now - e.ts ≤ 300)) := by
  have hprune : ∀ (pending : List (String × PendEntry)) (now : Int) (k : String)
      (e : PendEntry), alookup (prunePending pending now) k = some e → now - e.ts ≤ 300 := by
    intro pending now k e h
    have hmem := alookup_mem _ _ _ h
    unfold prunePending at hmem
    have := (List.mem_filter.mp hmem).2
    simp only [Bool.not_eq_true', decide_eq_false_iff_not, not_lt] at this
    exact this
  refine ⟨hprune, ?_, ?_⟩
  · intro st p rng now mac token hmac htok hpend
    simp [handleRegistrationReply, hmac, htok, hpend]
  · intro st mac tok m tv topic now hclient hm htv
    have hpend : (requestRegistration st mac tok topic now).1.pending_registrations =
        ains (prunePending st.pending_registrations now) (pyLower m)
          { token := pyLower tv, ts := now } := by
      simp [requestRegistration, hclient, hm, htv, publishDiscover]
    have hok : (requestRegistration st mac tok topic now).2 = true := by
      simp [requestRegistration, hclient, hm, htv, publishDiscover]
    refine ⟨hok, ?_, ?_⟩
    · rw [hpend]
      exact alookup_ains_self _ _ _
    · intro k e h
      rw [hpend] at h
      by_cases hk : k = pyLower m
      · subst hk
        rw [alookup_ains_self] at h
        cases h
        simp
      · rw [alookup_ains_other _ _ _ _ hk] at h
        exact hprune _ _ _ _ h

/-- Witness for the TTL theorem: a fresh entry survives a prune pass, a
reply with no pending entry is refused, and a registration request
inserts a fresh entry. -/
theorem pending_registration_ttl_witness :
    ((100 : Int) - (⟨"t", 0⟩ : PendEntry).ts ≤ 300) ∧
    handleRegistrationReply { db := ⟨[], [], [], [], [], []⟩, client := true }
      [("mac", jstr "AA"), ("token", jstr "T")] 0 5 =
      ({ db := ⟨[], [], [], [], [], []⟩, client := true }, false) ∧
    alookup (requestRegistration { db := ⟨[], [], [], [], [], []⟩, client := true }
      "AA:BB" "Tok" none 50).1.pending_registrations
      (pyLower "AA:BB") = some { token := pyLower "Tok", ts := 50 } := by
  obtain ⟨h1, h2, h3⟩ := pending_registration_ttl
  refine ⟨h1 [("k", ⟨"t", 0⟩)] 100 "k" ⟨"t", 0⟩ (by decide), ?_, ?_⟩
  · exact h2 { db := ⟨[], [], [], [], [], []⟩, client := true }
      [("mac", jstr "AA"), ("token", jstr "T")] 0 5 "AA" "T" rfl rfl rfl
  · exact (h3 { db := ⟨[], [], [], [], [], []⟩, client := true }
      "AA:BB" "Tok" "AA:BB" "Tok" none 50 rfl rfl rfl).2.1

end PendingTTL

section RegistrationNoUser

/-- C10: a discovery reply matching a pending entry while no user
account exists still consumes the pending entry, creates no device
(store unchanged), issues no session code, publishes no confirmation,
and reports the message handled (`true`); an identical retry is then
refused with no state change. -/
theorem registration_reply_without_user (st : EState) (p : Payload)
    (rng rng2 : Nat) (now now2 : Int) (mac token : String) (entry : PendEntry)
    (hmac : regMacValue p = some mac)
    (htok : coerceStr (getJ p "token") = some token)
    (hpend : alookup st.pending_registrations (pyLower mac) = some entry)
    (hmatch : entry.token = pyLower token)
    (husers : st.db.users = []) :
    (handleRegistrationReply st p rng now).2 = true ∧
    (handleRegistrationReply st p rng now).1.db = st.db ∧
    (handleRegistrationReply st p rng now).1.published = st.published ∧
    (handleRegistrationReply st p rng now).1.session_codes = st.session_codes ∧
    alookup (handleRegistrationReply st p rng now).1.pending_registrations
      (pyLower mac) = none ∧
    handleRegistrationReply (handleRegistrationReply st p rng now).1 p rng2 now2 =
      ((handleRegistrationReply st p rng now).1, false) := by
  have husers' : st.db.users.head? = none := by rw [husers]; rfl
  have h : handleRegistrationReply st p rng now =
      ({ st with pending_registrations := aerase st.pending_registrations (pyLower mac) },
       true) := by
    simp [handleRegistrationReply, hmac, htok, hpend, hmatch,
      registerDeviceFromRegistration, husers']
  refine ⟨by rw [h], by rw [h], by rw [h], by rw [h], ?_, ?_⟩
  · rw [h]
    exact alookup_aerase_self _ _
  · rw [h]
    simp [handleRegistrationReply, hmac, htok, alookup_aerase_self]

/-- Witness: one user-less store, a matching pending entry, a concrete
reply; the reply is consumed yet nothing is registered or published. -/
theorem registration_reply_without_user_witness :
    (handleRegistrationReply
      { db := ⟨[], [], [], [], [], []⟩, client := true,
        pending_registrations := [("aa:bb", ⟨"tok1", 0⟩)] }
      [("mac", jstr "AA:BB"), ("token", jstr "Tok1")] 3 10).2 = true ∧
    (handleRegistrationReply
      { db := ⟨[], [], [], [], [], []⟩, client := true,
        pending_registrations := [("aa:bb", ⟨"tok1", 0⟩)] }
      [("mac", jstr "AA:BB"), ("token", jstr "Tok1")] 3 10).1.db =
      (⟨[], [], [], [], [], []⟩ : DB) ∧
    (handleRegistrationReply
      { db := ⟨[], [], [], [], [], []⟩, client := true,
        pending_registrations := [("aa:bb", ⟨"tok1", 0⟩)] }
      [("mac", jstr "AA:BB"), ("token", jstr "Tok1")] 3 10).1.published = [] := by
  obtain ⟨h1, h2, h3, _, _, _⟩ := registration_reply_without_user
    { db := ⟨[], [], [], [], [], []⟩, client := true,
      pending_registrations := [("aa:bb", ⟨"tok1", 0⟩)] }
    [("mac", jstr "AA:BB"), ("token", jstr "Tok1")] 3 0 10 0 "AA:BB" "Tok1" ⟨"tok1", 0⟩
    rfl rfl rfl rfl rfl
  exact ⟨h1, h2, h3⟩

end RegistrationNoUser

section Placeholder

/-- C6 (amended): a message whose payload resolves to no existing device
fabricates nothing — the alert and alive handlers return with the state
unchanged; the settings handler first falls back to the pending
settings-request queue for the payload token and, when that also yields
no device, leaves everything but that queue unchanged.  No placeholder
device (named from the message or `"unknown"`) is ever created. -/
theorem no_placeholder_on_unresolved (st : EState) (p : Payload) (topic : String)
    (now : Int) (nowIso : String)
    (h : resolveDevice st.db p = none) :
    handleAlert st p topic now = st ∧
    handleAlive st p now = st ∧
    (tokenValueOf p = none → handleSettings st p topic now nowIso = st) ∧
    (∀ tv : String, tokenValueOf p = some tv → (popPendingSettingsDevice st tv).2 = none →
      handleSettings st p topic now nowIso = (popPendingSettingsDevice st tv).1) := by
  refine ⟨?_, ?_, ?_, ?_⟩
  · simp [handleAlert, h]
  · simp [handleAlive, h]
  · intro htok
    unfold tokenValueOf at htok
    simp [handleSettings, h, htok]
  · intro tv htok hpop
    unfold tokenValueOf at htok
    simp [handleSettings, h, htok, hpop]

/-- The claim as frozen is false: at a store with one account and no
devices, a name-bearing alert/settings/alive payload resolves to no
device and every handler leaves the device table empty — no placeholder
is created, with or without a device name. -/
theorem placeholder_fabrication_counterexample :
    resolveDevice ⟨[⟨1⟩], [], [], [], [], []⟩ [("device_name", jstr "sensor-1")] = none ∧
    (handleAlert { db := ⟨[⟨1⟩], [], [], [], [], []⟩, client := true }
      [("device_name", jstr "sensor-1")] "esp/alert" 0).db.devices = [] ∧
    (handleAlive { db := ⟨[⟨1⟩], [], [], [], [], []⟩, client := true }
      [("device_name", jstr "sensor-1")] 0).db.devices = [] ∧
    (handleSettings { db := ⟨[⟨1⟩], [], [], [], [], []⟩, client := true }
      [("device_name", jstr "sensor-1")] "esp/setting/now" 0
      "2024-01-01T00:00:00Z").db.devices = [] := by
  exact ⟨rfl, rfl, rfl, rfl⟩

/-- Witness for the amended no-placeholder theorem at a concrete state
and payload. -/
theorem no_placeholder_on_unresolved_witness :
    handleAlert { db := ⟨[⟨1⟩], [], [], [], [], []⟩, client := true }
      [("device_name", jstr "cam-2")] "esp/alert" 7 =
      { db := ⟨[⟨1⟩], [], [], [], [], []⟩, client := true } ∧
    handleAlive { db := ⟨[⟨1⟩], [], [], [], [], []⟩, client := true }
      [("device_name", jstr "cam-2")] 7 =
      { db := ⟨[⟨1⟩], [], [], [], [], []⟩, client := true } ∧
    handleSettings { db := ⟨[⟨1⟩], [], [], [], [], []⟩, client := true }
      [("device_name", jstr "cam-2")] "esp/setting/now" 7 "z" =
      { db := ⟨[⟨1⟩], [], [], [], [], []⟩, client := true } := by
  obtain ⟨h1, h2, h3, _⟩ := no_placeholder_on_unresolved
    { db := ⟨[⟨1⟩], [], [], [], [], []⟩, client := true }
    [("device_name", jstr "cam-2")] "esp/alert" 7 "z" rfl
  obtain ⟨_, _, h3', _⟩ := no_placeholder_on_unresolved
    { db := ⟨[⟨1⟩], [], [], [], [], []⟩, client := true }
    [("device_name", jstr "cam-2")] "esp/setting/now" 7 "z" rfl
  exact ⟨h1, h2, h3' rfl⟩

end Placeholder

section BlocklistMerge

theorem pyDedupGo_fuel (n : Nat) (l : List String) (h : l.length ≤ n) :
    pyDedupGo n l = pyDedupGo l.length l := by
  cases l with
  | nil => cases n <;> rfl
  | cons x xs =>
    cases n with
    | zero => simp at h
    | succ m =>
      have hxm : xs.length ≤ m := by
        simp only [List.length_cons] at h
        omega
      have h1 : (xs.filter fun y => y != x).length ≤ m :=
        le_trans (List.length_filter_le _ _) hxm
      have h2 : (xs.filter fun y => y != x).length ≤ xs.length :=
        List.length_filter_le _ _
      show x :: pyDedupGo m (xs.filter fun y => y != x) =
        x :: pyDedupGo xs.length (xs.filter fun y => y != x)
      rw [pyDedupGo_fuel m _ h1, pyDedupGo_fuel xs.length _ h2]
termination_by n
decreasing_by
  · omega
  · omega

theorem pyDedup_nil : pyDedup [] = [] := rfl

theorem pyDedup_cons (x : String) (xs : List String) :
    pyDedup (x :: xs) = x :: pyDedup (xs.filter (fun y => y != x)) := by
  show x :: pyDedupGo xs.length (xs.filter (fun y => y != x)) = _
  rw [pyDedupGo_fuel xs.length _ (List.length_filter_le _ _)]
  rfl

/-- Induction along the recursion structure of `pyDedup`. -/
theorem pyDedup_ind (motive : List String → Prop) (hnil : motive [])
    (hcons : ∀ x xs, motive (xs.filter fun y => y != x) → motive (x :: xs)) :
    ∀ l, motive l := by
  suffices h : ∀ (n : Nat) (l : List String), l.length ≤ n → motive l by
    intro l
    exact h l.length l le_rfl
  intro n
  induction n with
  | zero =>
    intro l hl
    cases l with
    | nil => exact hnil
    | cons x xs => simp at hl
  | succ m ih =>
    intro l hl
    cases l with
    | nil => exact hnil
    | cons x xs =>
      apply hcons
      apply ih
      calc (xs.filter fun y => y != x).length ≤ xs.length :=
            List.length_filter_le _ _
        _ ≤ m := by simpa using Nat.le_of_succ_le_succ hl

theorem pyDedup_subset (l : List String) : ∀ a, a ∈ pyDedup l → a ∈ l := by
  induction l using pyDedup_ind with
  | hnil =>
    intro a h
    rw [pyDedup_nil] at h
    cases h
  | hcons x xs ih =>
    intro a h
    rw [pyDedup_cons] at h
    rcases List.mem_cons.mp h with h1 | h2
    · exact h1 ▸ List.mem_cons_self _ _
    · exact List.mem_cons_of_mem _ (List.mem_of_mem_filter (ih a h2))

theorem pyDedup_nodup (l : List String) : (pyDedup l).Nodup := by
  induction l using pyDedup_ind with
  | hnil => rw [pyDedup_nil]; exact List.nodup_nil
  | hcons x xs ih =>
    rw [pyDedup_cons]
    refine List.nodup_cons.mpr ⟨?_, ih⟩
    intro hmem
    have h := List.mem_filter.mp (pyDedup_subset _ _ hmem)
    simp at h

theorem pyDedup_filter (q : String → Bool) (l : List String) :
    (pyDedup l).filter q = pyDedup (l.filter q) := by
  induction l using pyDedup_ind with
  | hnil => rw [pyDedup_nil]; rfl
  | hcons x xs ih =>
    rw [pyDedup_cons, List.filter_cons, List.filter_cons]
    by_cases hq : q x = true
    · rw [if_pos hq, if_pos hq, pyDedup_cons]
      congr 1
      rw [ih, List.filter_filter, List.filter_filter]
      congr 1
      exact List.filter_congr (fun y _ => Bool.and_comm _ _)
    · rw [if_neg hq, if_neg hq, ih, List.filter_filter]
      congr 1
      apply List.filter_congr
      intro y _
      have hqf : q x = false := by
        cases hqx : q x
        · rfl
        · exact absurd hqx hq
      by_cases hy : y = x
      · subst hy
        simp [hqf]
      · simp [bne, hy]

theorem pyDedup_idem_append (l : List String) : ∀ r : List String,
    pyDedup (pyDedup l ++ r) = pyDedup (l ++ r) := by
  induction l using pyDedup_ind with
  | hnil =>
    intro r
    rw [pyDedup_nil]
  | hcons x xs ih =>
    intro r
    rw [pyDedup_cons, List.cons_append, pyDedup_cons, List.cons_append, pyDedup_cons]
    congr 1
    rw [List.filter_append, List.filter_append, pyDedup_filter]
    have hff : (xs.filter (fun y => y != x)).filter (fun y => y != x) =
        xs.filter (fun y => y != x) := by
      rw [List.filter_filter]
      exact List.filter_congr (fun y _ => Bool.and_self _)
    rw [hff, ih]

theorem pyDedup_prefix (c : List String) : ∀ p : List String, c.Nodup →
    pyDedup (c ++ p) = c ++ (pyDedup p).filter (fun x => !c.contains x) := by
  induction c with
  | nil =>
    intro p _
    simp
  | cons x cs ih =>
    intro p h
    obtain ⟨hx, hcs⟩ := List.nodup_cons.mp h
    rw [List.cons_append, pyDedup_cons, List.filter_append]
    have hcsf : cs.filter (fun y => y != x) = cs := by
      apply List.filter_eq_self.mpr
      intro y hy
      have hne : y ≠ x := fun he => hx (he ▸ hy)
      simp [bne, hne]
    rw [hcsf, ih _ hcs, ← pyDedup_filter, List.filter_filter]
    have hpred : ∀ y : String, ((!cs.contains y) && (y != x)) =
        !((x :: cs).contains y) := by
      intro y
      by_cases hy : y = x
      · subst hy
        simp [List.contains_cons]
      · simp [List.contains_cons, bne, hy, Bool.and_comm]
    simp only [List.cons_append]
    congr 1
    rw [List.filter_congr (fun y _ => hpred y)]

/-- C4 as frozen is false in its no-publish clause:
`_apply_blocklist_update` publishes even when the merged list equals the
cached list (here cached `["1.2.3.4"]` merged with pending
`{"1.2.3.4"}`). -/
theorem blocklist_noop_publish_counterexample :
    pyDedup (parseBlockedList [("blocked_ips", jarr [jstr "1.2.3.4"])] ++ ["1.2.3.4"]) =
      parseBlockedList [("blocked_ips", jarr [jstr "1.2.3.4"])] ∧
    (applyBlocklistUpdate
      { db := ⟨[⟨1⟩], [⟨1, 1, "ESP32", "E1", true, none, none⟩], [⟨1, "tok"⟩], [], [], []⟩,
        client := true }
      ⟨1, 1, "ESP32", "E1", true, none, none⟩ ["1.2.3.4"]
      [("blocked_ips", jarr [jstr "1.2.3.4"])]).published.length = 1 := by
  exact ⟨rfl, rfl⟩

/-- C4 (amended): the blocklist merge is an order-preserving
deduplicated union — every IP occurs at most once after a merge, merging
set A then set B equals merging `A ++ B` once, and a duplicate-free
cached list is kept as a prefix with the new entries appended in
discovery order; `_sync_blacklist_to_device` skips the publish when the
merge is a no-op, while `_apply_blocklist_update` publishes
unconditionally whenever a client and a device token are present, even
for a no-op merge. -/
theorem blocklist_merge_properties :
    (∀ (l : List String) (ip : String), (pyDedup l).count ip ≤ 1) ∧
    (∀ c A B : List String,
      pyDedup (pyDedup (c ++ A) ++ B) = pyDedup (c ++ (A ++ B))) ∧
    (∀ c p : List String, c.Nodup →
      pyDedup (c ++ p) = c ++ (pyDedup p).filter (fun x => !c.contains x)) ∧
    (∀ (st : EState) (device : Device) (ips : List String),
      pyDedup (parseBlockedList ((alookup st.latest_settings device.id).getD []) ++ ips) =
        parseBlockedList ((alookup st.latest_settings device.id).getD []) →
      syncBlacklistToDevice st device ips = st) ∧
    (∀ (st : EState) (device : Device) (pending : List String) (cached : Payload),
      st.client = true →
      optTruthy ((st.db.tokenFor device.id).map DeviceToken.token) = true →
      (applyBlocklistUpdate st device pending cached).published.length =
        st.published.length + 1) := by
  refine ⟨?_, ?_, ?_, ?_, ?_⟩
  · intro l ip
    exact List.nodup_iff_count_le_one.mp (pyDedup_nodup l) ip
  · intro c A B
    rw [pyDedup_idem_append, List.append_assoc]
  · intro c p h
    exact pyDedup_prefix c p h
  · intro st device ips hmerge
    unfold syncBlacklistToDevice
    by_cases h1 : (!st.client || ips.isEmpty) = true
    · simp [h1]
    · simp only [h1, Bool.false_eq_true, if_false]
      by_cases h2 :
          (!optTruthy ((st.db.tokenFor device.id).map DeviceToken.token)) = true
      · simp [h2]
      · have hb : (pyDedup (parseBlockedList
            ((alookup st.latest_settings device.id).getD []) ++ ips) ==
            parseBlockedList ((alookup st.latest_settings device.id).getD [])) = true := by
          rw [hmerge]
          exact beq_self_eq_true _
        simp [h2, hb]
  · intro st device pending cached hclient htok
    unfold applyBlocklistUpdate
    simp [hclient, htok]

/-- Witness for the merge theorem at concrete lists, a concrete no-op
sync and a concrete forced publish. -/
theorem blocklist_merge_properties_witness :
    (pyDedup ["1.2.3.4", "5.6.7.8", "1.2.3.4"]).count "1.2.3.4" ≤ 1 ∧
    pyDedup (pyDedup (["9.9.9.9"] ++ ["1.2.3.4"]) ++ ["5.6.7.8"]) =
      pyDedup (["9.9.9.9"] ++ (["1.2.3.4"] ++ ["5.6.7.8"])) ∧
    pyDedup (["9.9.9.9"] ++ ["9.9.9.9", "5.6.7.8"]) =
      ["9.9.9.9"] ++ (pyDedup ["9.9.9.9", "5.6.7.8"]).filter
        (fun x => !(["9.9.9.9"].contains x)) ∧
    syncBlacklistToDevice
      { db := ⟨[⟨1⟩], [⟨1, 1, "ESP32", "E1", true, none, none⟩], [⟨1, "tok"⟩], [], [], []⟩,
        client := true,
        latest_settings := [(1, [("blocked_ips", jarr [jstr "1.2.3.4"])])] }
      ⟨1, 1, "ESP32", "E1", true, none, none⟩ ["1.2.3.4"] =
      { db := ⟨[⟨1⟩], [⟨1, 1, "ESP32", "E1", true, none, none⟩], [⟨1, "tok"⟩], [], [], []⟩,
        client := true,
        latest_settings := [(1, [("blocked_ips", jarr [jstr "1.2.3.4"])])] } ∧
    (applyBlocklistUpdate
      { db := ⟨[⟨1⟩], [⟨1, 1, "ESP32", "E1", true, none, none⟩], [⟨1, "tok"⟩], [], [], []⟩,
        client := true }
      ⟨1, 1, "ESP32", "E1", true, none, none⟩ [] []).published.length = 0 + 1 := by
  obtain ⟨ha, hb, hc, hd, he⟩ := blocklist_merge_properties
  refine ⟨ha _ _, hb _ _ _, hc _ _ (by decide), ?_, ?_⟩
  · exact hd
      { db := ⟨[⟨1⟩], [⟨1, 1, "ESP32", "E1", true, none, none⟩], [⟨1, "tok"⟩], [], [], []⟩,
        client := true,
        latest_settings := [(1, [("blocked_ips", jarr [jstr "1.2.3.4"])])] }
      ⟨1, 1, "ESP32", "E1", true, none, none⟩ ["1.2.3.4"] rfl
  · exact he
      { db := ⟨[⟨1⟩], [⟨1, 1, "ESP32", "E1", true, none, none⟩], [⟨1, "tok"⟩], [], [], []⟩,
        client := true }
      ⟨1, 1, "ESP32", "E1", true, none, none⟩ [] [] rfl rfl

end BlocklistMerge

section Resolver

/-- C2: device resolution is MAC-first.  (i) If the payload carries a
MAC that matches a device X of the configured account, resolution
returns X; (ii) consequently it never returns a token-matched device
Y ≠ X, whatever token the payload also carries; (iii) with no MAC
supplied, a token matching more than one device row contributes no
match — if the remaining identifying fields are absent, resolution
fails; (iv) the token branch is consulted only when no MAC was
supplied: with a MAC present but unmatched, resolution ignores the
token entirely and fails when the remaining fields are absent. -/
theorem resolve_device_mac_precedence :
    (∀ (db : DB) (p : Payload) (m : String) (X : Device),
      resolveMacValue p = some m →
      macQuery db (ownerIdOf db) m = some X →
      resolveDevice db p = some X) ∧
    (∀ (db : DB) (p : Payload) (m t : String) (X Y : Device),
      resolveMacValue p = some m →
      macQuery db (ownerIdOf db) m = some X →
      tokenValueOf p = some t →
      Y ≠ X →
      resolveDevice db p ≠ some Y) ∧
    (∀ (db : DB) (p : Payload) (t : String),
      resolveMacValue p = none →
      tokenValueOf p = some t →
      2 ≤ (tokenRows db t).length →
      espChainValue p = none →
      deviceIdChainValue p = jnull →
      ipChainValue p = none →
      nameChainValue p = none →
      resolveDevice db p = none) ∧
    (∀ (db : DB) (p : Payload) (m : String),
      resolveMacValue p = some m →
      macQuery db (ownerIdOf db) m = none →
      espChainValue p = none →
      deviceIdChainValue p = jnull →
      nameChainValue p = none →
      resolveDevice db p = none) := by
  have part1 : ∀ (db : DB) (p : Payload) (m : String) (X : Device),
      resolveMacValue p = some m →
      macQuery db (ownerIdOf db) m = some X →
      resolveDevice db p = some X := by
    intro db p m X hmac hquery
    simp [resolveDevice, hmac, hquery]
  refine ⟨part1, ?_, ?_, ?_⟩
  · intro db p m t X Y hmac hquery _ hne hcon
    rw [part1 db p m X hmac hquery] at hcon
    exact hne (Option.some.inj hcon).symm
  · intro db p t hmac htok hlen hesp hdid hip hname
    cases hrows : tokenRows db t with
    | nil => simp [resolveDevice, hmac, htok, hrows, hesp, hdid, hip, hname, coerceInt]
    | cons r rest =>
      cases rest with
      | nil =>
        rw [hrows] at hlen
        simp at hlen
      | cons r2 rest2 =>
        simp [resolveDevice, hmac, htok, hrows, hesp, hdid, hip, hname, coerceInt]
  · intro db p m hmac hquery hesp hdid hname
    simp [resolveDevice, hmac, hquery, hesp, hdid, hname, coerceInt]

/-- Witness for the resolver theorem: a store holding device X (MAC
`AA:BB`) and device Y (token `tokY`), and payloads exercising each
clause. -/
theorem resolve_device_mac_precedence_witness :
    resolveDevice
      ⟨[⟨1⟩], [⟨1, 1, "devX", "EX", true, none, some "AA:BB"⟩,
        ⟨2, 1, "devY", "EY", true, none, none⟩], [⟨2, "tokY"⟩], [], [], []⟩
      [("mac", jstr "aa:bb"), ("token", jstr "tokY")] =
      some ⟨1, 1, "devX", "EX", true, none, some "AA:BB"⟩ ∧
    resolveDevice
      ⟨[⟨1⟩], [⟨1, 1, "devX", "EX", true, none, some "AA:BB"⟩,
        ⟨2, 1, "devY", "EY", true, none, none⟩], [⟨2, "tokY"⟩], [], [], []⟩
      [("mac", jstr "aa:bb"), ("token", jstr "tokY")] ≠
      some ⟨2, 1, "devY", "EY", true, none, none⟩ ∧
    resolveDevice
      ⟨[⟨1⟩], [⟨2, 1, "devY", "EY", true, none, none⟩], [⟨2, "t"⟩, ⟨2, "t"⟩], [], [], []⟩
      [("token", jstr "t")] = none ∧
    resolveDevice
      ⟨[⟨1⟩], [⟨2, 1, "devY", "EY", true, none, none⟩], [⟨2, "tokY"⟩], [], [], []⟩
      [("mac", jstr "zz"), ("token", jstr "tokY")] = none := by
  obtain ⟨h1, h2, h3, h4⟩ := resolve_device_mac_precedence
  refine ⟨?_, ?_, ?_, ?_⟩
  · exact h1 _ _ "aa:bb" _ rfl rfl
  · exact h2 _ _ "aa:bb" "tokY" ⟨1, 1, "devX", "EX", true, none, some "AA:BB"⟩
      ⟨2, 1, "devY", "EY", true, none, none⟩ rfl rfl rfl (by decide)
  · exact h3 _ _ "t" rfl rfl (by decide) rfl rfl rfl rfl
  · exact h4 _ _ "zz" rfl rfl rfl rfl rfl

end Resolver

section RegistrationConfirm

theorem find?_update_token (tokens : List DeviceToken) (idx : Nat) (tok : String)
    (h : (tokens.find? (fun t => t.device_id == idx)).isSome = true) :
    ((tokens.map (fun (t : DeviceToken) =>
        if t.device_id == idx then { t with token := tok } else t)).find?
      (fun t => t.device_id == idx)).map DeviceToken.token = some tok := by
  induction tokens with
  | nil => simp at h
  | cons hd tl ih =>
    by_cases hh : (hd.device_id == idx) = true
    · simp only [List.map_cons, if_pos hh]
      have hpos : (fun (t : DeviceToken) => t.device_id == idx)
          ({ hd with token := tok } : DeviceToken) = true := hh
      rw [@List.find?_cons_of_pos DeviceToken (fun t => t.device_id == idx) _ _ hpos]
      rfl
    · simp only [List.map_cons, if_neg hh]
      have hneg : ¬ (fun (t : DeviceToken) => t.device_id == idx) hd = true := hh
      rw [@List.find?_cons_of_neg DeviceToken (fun t => t.device_id == idx) _ _ hneg]
      apply ih
      rw [@List.find?_cons_of_neg DeviceToken (fun t => t.device_id == idx) _ _ hneg] at h
      exact h

theorem find?_append_of_none {p : DeviceToken → Bool} (l l2 : List DeviceToken)
    (h : l.find? p = none) : (l ++ l2).find? p = l2.find? p := by
  rw [List.find?_append, h, Option.none_or]

theorem upsertTokenRow_find (ts : List DeviceToken) (idx : Nat) (tok : String) :
    ((upsertTokenRow ts idx tok).find? (fun t => t.device_id == idx)).map
      DeviceToken.token = some tok := by
  unfold upsertTokenRow
  by_cases h : (ts.find? (fun t => t.device_id == idx)).isSome = true
  · rw [if_pos h]
    exact find?_update_token ts idx tok h
  · rw [if_neg h]
    have hnone : ts.find? (fun t => t.device_id == idx) = none := by
      cases hf : ts.find? (fun t => t.device_id == idx) with
      | none => rfl
      | some r => rw [hf] at h; simp at h
    rw [find?_append_of_none _ _ hnone]
    have hpos : (fun (t : DeviceToken) => t.device_id == idx)
        ({ device_id := idx, token := tok } : DeviceToken) = true := beq_self_eq_true idx
    rw [@List.find?_cons_of_pos DeviceToken (fun t => t.device_id == idx) _ _ hpos]
    rfl

/-- `_register_device_from_registration` with an owner on record always
yields a device carrying the stripped MAC as `esp_id` and `mac_address`,
active, present in the store, and whose token row holds the new token;
the user table is untouched. -/
theorem register_ok (db : DB) (mac token : String) (now : Int) (owner : User)
    (howner : db.users.head? = some owner) :
    ∃ d : Device,
      (registerDeviceFromRegistration db mac token now).2 = some d ∧
      d ∈ (registerDeviceFromRegistration db mac token now).1.devices ∧
      d.esp_id = pyStrip mac ∧ d.is_active = true ∧
      d.mac_address = some (pyStrip mac) ∧
      ((registerDeviceFromRegistration db mac token now).1.tokenFor d.id).map
        DeviceToken.token = some token ∧
      (registerDeviceFromRegistration db mac token now).1.users = db.users := by
  unfold registerDeviceFromRegistration
  rw [howner]
  simp only
  cases hespq : db.devices.find? (fun d => d.esp_id == pyStrip mac) with
  | some d0 =>
    simp only [hespq]
    refine ⟨{ d0 with is_active := true, mac_address := some (pyStrip mac), esp_id := pyStrip mac }, rfl, ?_, rfl, rfl, rfl, ?_, trivial⟩
    · refine List.mem_map.mpr ⟨d0, List.mem_of_find?_eq_some hespq, ?_⟩
      rw [if_pos (beq_self_eq_true d0.id)]
    · simp only [DB.tokenFor]
      exact upsertTokenRow_find _ _ _
  | none =>
    simp only [hespq]
    cases hmacq : db.devices.find? (fun d => d.user_id == owner.id &&
        match d.mac_address with
        | some dm => pyLower dm == pyLower (pyStrip mac)
        | none => false) with
    | some d0 =>
      simp only [hmacq]
      refine ⟨{ d0 with is_active := true, mac_address := some (pyStrip mac), esp_id := pyStrip mac }, rfl, ?_, rfl, rfl, rfl, ?_, trivial⟩
      · refine List.mem_map.mpr ⟨d0, List.mem_of_find?_eq_some hmacq, ?_⟩
        rw [if_pos (beq_self_eq_true d0.id)]
      · simp only [DB.tokenFor]
        exact upsertTokenRow_find _ _ _
    | none =>
      simp only [hmacq]
      refine ⟨{ id := freshDeviceId db, user_id := owner.id, name := "ESP32", esp_id := pyStrip mac, is_active := true, ip_address := none, mac_address := some (pyStrip mac) }, rfl, ?_, rfl, rfl, rfl, ?_, trivial⟩
      · exact List.mem_append_right _ (List.mem_singleton.mpr rfl)
      · simp only [DB.tokenFor]
        exact upsertTokenRow_find _ _ _

/-- C1: a discovery reply whose MAC matches an outstanding pending
entry and whose token equals the stored token is handled exactly once:
the pending entry is consumed, the device is registered/updated (active,
carrying the stripped MAC as `esp_id`/`mac_address`, its token row
holding the reply token), and exactly one confirmation
`Confirm-<code>-<token>` is published on the discovery topic; an
identical second reply then returns `false` and causes no registration,
no publish, and no pending-ledger change (the state is unchanged). -/
theorem registration_reply_once (st : EState) (p : Payload) (rng rng2 : Nat)
    (now now2 : Int) (mac token : String) (entry : PendEntry) (owner : User)
    (hmac : regMacValue p = some mac)
    (htok : coerceStr (getJ p "token") = some token)
    (hpend : alookup st.pending_registrations (pyLower mac) = some entry)
    (hmatch : entry.token = pyLower token)
    (hclient : st.client = true)
    (howner : st.db.users.head? = some owner) :
    (handleRegistrationReply st p rng now).2 = true ∧
    (handleRegistrationReply st p rng now).1.published =
      st.published ++ [(st.discovery_topic,
        PubMsg.text ("Confirm-" ++ generateSessionCode rng ++ "-" ++ token))] ∧
    (∃ d : Device, d ∈ (handleRegistrationReply st p rng now).1.db.devices ∧
      d.esp_id = pyStrip mac ∧ d.is_active = true ∧
      d.mac_address = some (pyStrip mac) ∧
      ((handleRegistrationReply st p rng now).1.db.tokenFor d.id).map
        DeviceToken.token = some token) ∧
    alookup (handleRegistrationReply st p rng now).1.pending_registrations
      (pyLower mac) = none ∧
    handleRegistrationReply (handleRegistrationReply st p rng now).1 p rng2 now2 =
      ((handleRegistrationReply st p rng now).1, false) := by
  obtain ⟨d, hd2, hdmem, hesp, hact, hmacd, htokf, _⟩ :=
    register_ok st.db mac token now owner howner
  have h4 : alookup (handleRegistrationReply st p rng now).1.pending_registrations
      (pyLower mac) = none := by
    simp [handleRegistrationReply, hmac, htok, hpend, hmatch, hd2, hclient,
      storeSessionCode]
    exact alookup_aerase_self _ _
  refine ⟨?_, ?_, ?_, h4, ?_⟩
  · simp [handleRegistrationReply, hmac, htok, hpend, hmatch, hd2, hclient]
  · simp [handleRegistrationReply, hmac, htok, hpend, hmatch, hd2, hclient,
      storeSessionCode, storeCodeKey]
  · refine ⟨d, ?_, hesp, hact, hmacd, ?_⟩
    · simpa [handleRegistrationReply, hmac, htok, hpend, hmatch, hd2, hclient,
        storeSessionCode] using hdmem
    · simpa [handleRegistrationReply, hmac, htok, hpend, hmatch, hd2, hclient,
        storeSessionCode] using htokf
  · revert h4
    generalize (handleRegistrationReply st p rng now).1 = stq
    intro h4
    simp [handleRegistrationReply, hmac, htok, h4]

/-- Witness: one account on record, a pending entry for `aa:bb` with
token `tok1`, a matching reply; the handler confirms once and the
identical retry is refused. -/
theorem registration_reply_once_witness :
    (handleRegistrationReply
      { db := ⟨[⟨1⟩], [], [], [], [], []⟩, client := true,
        pending_registrations := [("aa:bb", ⟨"tok1", 0⟩)] }
      [("mac", jstr "AA:BB"), ("token", jstr "Tok1")] 5 10).2 = true ∧
    (handleRegistrationReply
      { db := ⟨[⟨1⟩], [], [], [], [], []⟩, client := true,
        pending_registrations := [("aa:bb", ⟨"tok1", 0⟩)] }
      [("mac", jstr "AA:BB"), ("token", jstr "Tok1")] 5 10).1.published =
      [] ++ [("esp/Entrance", PubMsg.text ("Confirm-" ++ generateSessionCode 5 ++ "-" ++ "Tok1"))] ∧
    alookup (handleRegistrationReply
      { db := ⟨[⟨1⟩], [], [], [], [], []⟩, client := true,
        pending_registrations := [("aa:bb", ⟨"tok1", 0⟩)] }
      [("mac", jstr "AA:BB"), ("token", jstr "Tok1")] 5 10).1.pending_registrations
      (pyLower "AA:BB") = none ∧
    handleRegistrationReply (handleRegistrationReply
      { db := ⟨[⟨1⟩], [], [], [], [], []⟩, client := true,
        pending_registrations := [("aa:bb", ⟨"tok1", 0⟩)] }
      [("mac", jstr "AA:BB"), ("token", jstr "Tok1")] 5 10).1
      [("mac", jstr "AA:BB"), ("token", jstr "Tok1")] 7 20 =
      ((handleRegistrationReply
      { db := ⟨[⟨1⟩], [], [], [], [], []⟩, client := true,
        pending_registrations := [("aa:bb", ⟨"tok1", 0⟩)] }
      [("mac", jstr "AA:BB"), ("token", jstr "Tok1")] 5 10).1, false) := by
  obtain ⟨h1, h2, _, h4, h5⟩ := registration_reply_once
    { db := ⟨[⟨1⟩], [], [], [], [], []⟩, client := true,
      pending_registrations := [("aa:bb", ⟨"tok1", 0⟩)] }
    [("mac", jstr "AA:BB"), ("token", jstr "Tok1")] 5 7 10 20 "AA:BB" "Tok1"
    ⟨"tok1", 0⟩ ⟨1⟩ rfl rfl rfl rfl rfl rfl
  exact ⟨h1, h2, h4, h5⟩

end RegistrationConfirm

end TinyIDS
